import Mathlib

/-!
Joint point-to-point motion generator.

A shallow embedding of `examples/joint_point_to_point_motion.cpp`: the vector
helpers, the trajectory sampler `calculation_of_desired_values`, and the
planning code of `main` (unsynchronized pass, `max_vector`, synchronization
pass).

The source computes with `double`.  The embedding is written over an arbitrary
linearly ordered field `K` with a square-root function passed as an argument,
so every definition is executable (for instance over `ℚ`); the theorems about
real arithmetic instantiate `K := ℝ` and `sqrt := Real.sqrt`.  A
`std::array<double, 7>` is a function `Fin 7 → K`.
-/

namespace JointMotion

variable {K : Type} [LinearOrderedField K]

/-! ## Helpers (source lines 15-42) -/

/-- Sign of `x` as an `int` (source lines 15-20). -/
def sgn (x : K) : Int :=
  if x = 0 then 0 else (if x > 0 then 1 else -1)

/-- Componentwise sum of two joint arrays (source lines 21-27). -/
def add (a b : Fin 7 → K) : Fin 7 → K := fun i => a i + b i

/-- Componentwise difference of two joint arrays (source lines 28-34). -/
def sub (a b : Fin 7 → K) : Fin 7 → K := fun i => a i - b i

/-- Largest entry of a joint array: the accumulator starts at `a[0]` and the
loop over `i = 0 .. 6` replaces it whenever `a[i]` is larger (source lines 35-42). -/
def max_vector (a : Fin 7 → K) : K :=
  (List.finRange 7).foldl (fun out i => if a i > out then a i else out) (a 0)

/-! ## Trajectory sampler (source lines 44-100) -/

/-- Acceleration-phase expression (source lines 70-72). -/
def accel_value (t dq_max t_1 : K) (sign_delta_q : Int) : K :=
  (-1.0) / t_1 ^ 3 * dq_max * (sign_delta_q : K) * (0.5 * t - t_1) * t ^ 3

/-- Constant-velocity-phase expression (source lines 76-78). -/
def const_value (t dq_max t_1 q_1 : K) (sign_delta_q : Int) : K :=
  q_1 + (t - t_1) * dq_max * (sign_delta_q : K)

/-- Deceleration-phase expression (source lines 82-88); `t_d` and `delta_t_2`
are the entries of the arrays computed on lines 58-59. -/
def decel_value (t delta_q dq_max t_1 t_d delta_t_2 : K) (sign_delta_q : Int) : K :=
  delta_q +
    0.5 * (1 / delta_t_2 ^ 3 * (t - t_1 - 2 * delta_t_2 - t_d) * (t - t_1 - t_d) ^ 3 +
        (2 * t - 2 * t_1 - delta_t_2 - 2 * t_d)) *
      dq_max * (sign_delta_q : K)

/-- What one iteration of the loop on lines 61-95 writes for a joint:
`delta_q_d[joint_index]` and `joint_motion_finished[joint_index]`. -/
structure JointSample (K : Type) where
  delta_q_d : K
  joint_motion_finished : Bool

/-- Body of the loop on lines 61-95 for one joint. -/
def desired_joint (t delta_q dq_max t_1 t_2 t_f q_1 delta_q_motion_finished : K) :
    JointSample K :=
  let sign_delta_q : Int := sgn delta_q
  let t_d : K := t_2 - t_1
  let delta_t_2 : K := t_f - t_2
  if |delta_q| < delta_q_motion_finished then
    ⟨0, true⟩
  else if t < t_1 then
    ⟨accel_value t dq_max t_1 sign_delta_q, false⟩
  else if t ≥ t_1 ∧ t < t_2 then
    ⟨const_value t dq_max t_1 q_1 sign_delta_q, false⟩
  else if t ≥ t_2 ∧ t < t_f then
    ⟨decel_value t delta_q dq_max t_1 t_d delta_t_2 sign_delta_q, false⟩
  else
    ⟨delta_q, true⟩

/-- Number of the branch the loop body takes for one joint: 0 not moving,
1 acceleration, 2 constant velocity, 3 deceleration, 4 end of trajectory. -/
def joint_phase (t delta_q t_1 t_2 t_f delta_q_motion_finished : K) : Nat :=
  if |delta_q| < delta_q_motion_finished then 0
  else if t < t_1 then 1
  else if t ≥ t_1 ∧ t < t_2 then 2
  else if t ≥ t_2 ∧ t < t_f then 3
  else 4

/-- The sampler `calculation_of_desired_values` (source lines 44-100): returns the
array written to `*delta_q_d` and the value written to `*motion_finished_flag`. -/
def calculation_of_desired_values (t : K) (delta_q dq_max t_1 t_2 t_f q_1 : Fin 7 → K)
    (delta_q_motion_finished : K) : (Fin 7 → K) × Bool :=
  let s : Fin 7 → JointSample K := fun j =>
    desired_joint t (delta_q j) (dq_max j) (t_1 j) (t_2 j) (t_f j) (q_1 j)
      delta_q_motion_finished
  (fun j => (s j).delta_q_d,
    ((s 0).joint_motion_finished && (s 1).joint_motion_finished &&
      (s 2).joint_motion_finished && (s 3).joint_motion_finished &&
      (s 4).joint_motion_finished && (s 5).joint_motion_finished &&
      (s 6).joint_motion_finished))

/-- The array `joint_motion_finished` at the end of the loop on lines 61-95. -/
def joint_motion_finished (t : K) (delta_q dq_max t_1 t_2 t_f q_1 : Fin 7 → K)
    (delta_q_motion_finished : K) : Fin 7 → Bool :=
  fun j =>
    (desired_joint t (delta_q j) (dq_max j) (t_1 j) (t_2 j) (t_f j) (q_1 j)
      delta_q_motion_finished).joint_motion_finished

/-! ## Planning code of `main` (source lines 135-197) -/

/-- Speed-factor scaling of a limit array (source lines 138-142). -/
def scale (speed_factor : K) (a : Fin 7 → K) : Fin 7 → K := fun j => speed_factor * a j

/-- Initial `dq_max` of `main` (line 135). -/
def dq_max_init : Fin 7 → K := ![2.0, 2.0, 2.0, 2.0, 2.5, 2.5, 2.5]

/-- Initial `ddq_max_start` of `main` (line 136). -/
def ddq_max_start_init : Fin 7 → K := ![5, 5, 5, 5, 5, 5, 5]

/-- Initial `ddq_max_goal` of `main` (line 137). -/
def ddq_max_goal_init : Fin 7 → K := ![5, 5, 5, 5, 5, 5, 5]

/-- The constant `delta_q_motion_finished` of `main` (line 143). -/
def delta_q_motion_finished_main : K := 0.000001

/-- Per-joint result of the first planning loop (lines 162-178). -/
structure Unsync (K : Type) where
  dq_max_reach : K
  t_1 : K
  delta_t_2 : K
  t_f : K

/-- Body of the first planning loop (lines 162-178) for one joint.  `3 / 4` and
`4 / 3` are quotients of `int` literals in the source, hence integer divisions. -/
def unsync_joint (sqrt : K → K) (delta_q dq_max ddq_max_start ddq_max_goal
    delta_q_motion_finished : K) : Unsync K :=
  let sign_delta_q : Int := sgn delta_q
  if |delta_q| > delta_q_motion_finished then
    let dq_max_reach : K :=
      if |delta_q| <
          (((3 / 4 : Int) : K) * (dq_max ^ 2 / ddq_max_start) +
            ((3 / 4 : Int) : K) * (dq_max ^ 2 / ddq_max_goal)) then
        sqrt (((4 / 3 : Int) : K) * delta_q * (sign_delta_q : K) *
          (ddq_max_start * ddq_max_goal) / (ddq_max_start + ddq_max_goal))
      else dq_max
    let t_1 : K := 1.5 * dq_max_reach / ddq_max_start
    let delta_t_2 : K := 1.5 * dq_max_reach / ddq_max_goal
    ⟨dq_max_reach, t_1, delta_t_2, t_1 / 2 + delta_t_2 / 2 + |delta_q| / dq_max_reach⟩
  else
    ⟨dq_max, 0.0, 0.0, 0.0⟩

/-- Coefficient `a` of the synchronization quadratic (line 183). -/
def sync_a (ddq_max_start ddq_max_goal : K) : K :=
  1.5 / 2.0 * (ddq_max_goal + ddq_max_start)

/-- Coefficient `b` of the synchronization quadratic (line 184). -/
def sync_b (ddq_max_start ddq_max_goal max_t_f : K) : K :=
  (-1.0) * max_t_f * ddq_max_goal * ddq_max_start

/-- Coefficient `c` of the synchronization quadratic (lines 185-186). -/
def sync_c (delta_q ddq_max_start ddq_max_goal : K) : K :=
  |delta_q| * ddq_max_goal * ddq_max_start

/-- Discriminant `delta` of the synchronization quadratic (line 187). -/
def sync_delta (delta_q ddq_max_start ddq_max_goal max_t_f : K) : K :=
  sync_b ddq_max_start ddq_max_goal max_t_f * sync_b ddq_max_start ddq_max_goal max_t_f -
    4.0 * sync_a ddq_max_start ddq_max_goal * sync_c delta_q ddq_max_start ddq_max_goal

/-- Per-joint result of the synchronization loop (lines 181-197). -/
structure Sync (K : Type) where
  dq_max_sync : K
  t_1_sync : K
  t_2_sync : K
  delta_t_2_sync : K
  t_f_sync : K
  q_1 : K

/-- Body of the synchronization loop (lines 181-197) for one joint.
`dq_max_sync_0` is the content of the array entry `dq_max_sync[joint_index]`
before the loop: the array is declared without an initializer (line 146), so the
entry of a joint the loop skips keeps that value. -/
def sync_joint (sqrt : K → K) (delta_q ddq_max_start ddq_max_goal
    delta_q_motion_finished max_t_f dq_max_sync_0 : K) : Sync K :=
  let sign_delta_q : Int := sgn delta_q
  if |delta_q| > delta_q_motion_finished then
    let a : K := sync_a ddq_max_start ddq_max_goal
    let b : K := sync_b ddq_max_start ddq_max_goal max_t_f
    let delta : K := sync_delta delta_q ddq_max_start ddq_max_goal max_t_f
    let dq_max_sync : K := (((-1 : Int) : K) * b - sqrt delta) / (2.0 * a)
    let t_1_sync : K := 1.5 * dq_max_sync / ddq_max_start
    let delta_t_2_sync : K := 1.5 * dq_max_sync / ddq_max_goal
    let t_f_sync : K := t_1_sync / 2 + delta_t_2_sync / 2 + |delta_q / dq_max_sync|
    let t_2_sync : K := t_f_sync - delta_t_2_sync
    let q_1 : K := dq_max_sync * (sign_delta_q : K) * (0.5 * t_1_sync)
    ⟨dq_max_sync, t_1_sync, t_2_sync, delta_t_2_sync, t_f_sync, q_1⟩
  else
    ⟨dq_max_sync_0, 0.0, 0.0, 0.0, 0.0, 0.0⟩

/-- Everything the planning code of `main` has computed when `robot.control` is
called (line 198). -/
structure MotionPlan (K : Type) where
  delta_q : Fin 7 → K
  dq_max_reach : Fin 7 → K
  t_1 : Fin 7 → K
  delta_t_2 : Fin 7 → K
  t_f : Fin 7 → K
  max_t_f : K
  dq_max_sync : Fin 7 → K
  t_1_sync : Fin 7 → K
  t_2_sync : Fin 7 → K
  delta_t_2_sync : Fin 7 → K
  t_f_sync : Fin 7 → K
  q_1 : Fin 7 → K

/-- The array `t_f` after the first planning loop (lines 160-178). -/
def unsync_t_f (sqrt : K → K) (q_start q_goal dq_max ddq_max_start ddq_max_goal : Fin 7 → K)
    (delta_q_motion_finished : K) : Fin 7 → K :=
  fun j => (unsync_joint sqrt (sub q_goal q_start j) (dq_max j) (ddq_max_start j)
    (ddq_max_goal j) delta_q_motion_finished).t_f

/-- Planning code of `main`, lines 145-197, for already scaled limits `dq_max`,
`ddq_max_start`, `ddq_max_goal`.  `dq_max_sync_0` is the uninitialized content of
the array `dq_max_sync` (line 146). -/
def plan_motion (sqrt : K → K) (q_start q_goal dq_max ddq_max_start ddq_max_goal : Fin 7 → K)
    (delta_q_motion_finished : K) (dq_max_sync_0 : Fin 7 → K) : MotionPlan K :=
  let delta_q : Fin 7 → K := sub q_goal q_start
  let u : Fin 7 → Unsync K := fun j =>
    unsync_joint sqrt (delta_q j) (dq_max j) (ddq_max_start j) (ddq_max_goal j)
      delta_q_motion_finished
  let max_t_f : K := max_vector (fun j => (u j).t_f)
  let s : Fin 7 → Sync K := fun j =>
    sync_joint sqrt (delta_q j) (ddq_max_start j) (ddq_max_goal j)
      delta_q_motion_finished max_t_f (dq_max_sync_0 j)
  ⟨delta_q, fun j => (u j).dq_max_reach, fun j => (u j).t_1, fun j => (u j).delta_t_2,
    fun j => (u j).t_f, max_t_f, fun j => (s j).dq_max_sync, fun j => (s j).t_1_sync,
    fun j => (s j).t_2_sync, fun j => (s j).delta_t_2_sync, fun j => (s j).t_f_sync,
    fun j => (s j).q_1⟩

/-- The call on lines 204-205: the sampler applied to a computed plan. -/
def sample (p : MotionPlan K) (delta_q_motion_finished t : K) : (Fin 7 → K) × Bool :=
  calculation_of_desired_values t p.delta_q p.dq_max_sync p.t_1_sync p.t_2_sync p.t_f_sync
    p.q_1 delta_q_motion_finished

/-- Per-joint finished flags of the call on lines 204-205. -/
def sample_finished (p : MotionPlan K) (delta_q_motion_finished t : K) : Fin 7 → Bool :=
  joint_motion_finished t p.delta_q p.dq_max_sync p.t_1_sync p.t_2_sync p.t_f_sync
    p.q_1 delta_q_motion_finished

/-! ## Control callback (source lines 198-215) -/

/-- Value the control callback returns: `franka::Stop` (line 209) or the joint
positions built on lines 212-214. -/
inductive CallbackResult (K : Type) where
  | Stop
  | JointPositions (q : Fin 7 → K)

/-- Variables the callback captures by reference (line 198): `time`,
`delta_q_d` and `motion_finished_flag`. -/
structure CallbackState (K : Type) where
  time : K
  delta_q_d : Fin 7 → K
  motion_finished_flag : Bool

/-- One call of the control callback (lines 198-215) with tick duration
`time_step`: the new content of the captured variables and the returned value.
The message printed on line 208 is left out. -/
def control_callback (q_start : Fin 7 → K) (p : MotionPlan K) (delta_q_motion_finished : K)
    (st : CallbackState K) (time_step : K) : CallbackState K × CallbackResult K :=
  let time : K := st.time + time_step
  let r : (Fin 7 → K) × Bool :=
    calculation_of_desired_values time p.delta_q p.dq_max_sync p.t_1_sync p.t_2_sync
      p.t_f_sync p.q_1 delta_q_motion_finished
  let delta_q_d : Fin 7 → K := r.1
  let motion_finished_flag : Bool := r.2
  if motion_finished_flag = true then
    (⟨time, delta_q_d, motion_finished_flag⟩, CallbackResult.Stop)
  else
    (⟨time, delta_q_d, motion_finished_flag⟩,
      CallbackResult.JointPositions
        ![q_start 0 + delta_q_d 0, q_start 1 + delta_q_d 1, q_start 2 + delta_q_d 2,
          q_start 3 + delta_q_d 3, q_start 4 + delta_q_d 4, q_start 5 + delta_q_d 5,
          q_start 6 + delta_q_d 6])

/-- Hypotheses on one joint of a plan (peak velocity `v`, breakpoints `T1`, `T2`,
`Tf`, displacement `q1` at the end of the acceleration phase) under which the
sampler produces a monotone, continuous profile that ends on `d`. -/
structure Profile (d v T1 T2 Tf q1 thr : K) : Prop where
  d_ne : d ≠ 0
  moving : ¬ |d| < thr
  v_pos : 0 < v
  t_1_pos : 0 < T1
  t_1_le : T1 ≤ T2
  t_2_lt : T2 < Tf
  q_1_eq : q1 = v * ((sgn d : Int) : K) * (0.5 * T1)
  dist : |d| = v * (T2 - T1 / 2 + (Tf - T2) / 2)

/-- Planner-time failures named by the specification. -/
inductive PlanFailure where
  | InvalidLimitsError
  | InvalidInputError
  deriving DecidableEq

/-- Outcome of lines 135-197 of `main` for a given speed factor: the three limit
arrays are scaled (lines 138-142) and the plan is computed.  These lines contain
no test on a limit, no `throw` and no `return`, so control always reaches line
198 with a plan. -/
def planning_outcome (sqrt : K → K) (speed_factor : K) (q_start q_goal : Fin 7 → K)
    (dq_max_sync_0 : Fin 7 → K) : Except PlanFailure (MotionPlan K) :=
  Except.ok (plan_motion sqrt q_start q_goal (scale speed_factor dq_max_init)
    (scale speed_factor ddq_max_start_init) (scale speed_factor ddq_max_goal_init)
    delta_q_motion_finished_main dq_max_sync_0)

/-! ## A concrete run -/

/-- Goal of the single-joint run: only array index 3 differs from the all-zero
start, by `0.2`. -/
def scenario_goal : Fin 7 → K := ![0, 0, 0, 0.2, 0, 0, 0]

/-- Plan of `main` for the all-zero start, `scenario_goal` and speed factor `0.5`;
the uninitialized array `dq_max_sync` is taken to hold zeros. -/
def scenario_plan (sqrt : K → K) : MotionPlan K :=
  plan_motion sqrt (fun _ => 0) scenario_goal (scale 0.5 dq_max_init)
    (scale 0.5 ddq_max_start_init) (scale 0.5 ddq_max_goal_init)
    delta_q_motion_finished_main (fun _ => 0)

/-! ## The helpers -/

section Generic

variable {K : Type} [LinearOrderedField K]

theorem foldl_max_ge_init (a : Fin 7 → K) (l : List (Fin 7)) (out : K) :
    out ≤ l.foldl (fun out i => if a i > out then a i else out) out := by
  induction l generalizing out with
  | nil => simp
  | cons i l ih =>
    simp only [List.foldl_cons]
    split_ifs with h
    · exact le_trans (le_of_lt h) (ih _)
    · exact ih _

theorem foldl_max_ge_mem (a : Fin 7 → K) (l : List (Fin 7)) (out : K) (j : Fin 7)
    (hj : j ∈ l) : a j ≤ l.foldl (fun out i => if a i > out then a i else out) out := by
  induction l generalizing out with
  | nil => simp at hj
  | cons i l ih =>
    simp only [List.foldl_cons]
    rcases List.mem_cons.mp hj with rfl | hmem
    · split_ifs with h
      · exact foldl_max_ge_init a l _
      · exact le_trans (not_lt.mp h) (foldl_max_ge_init a l _)
    · exact ih _ hmem

/-- The value `max_vector` returns is at least every entry of the array. -/
theorem max_vector_ge (a : Fin 7 → K) (j : Fin 7) : a j ≤ max_vector a :=
  foldl_max_ge_mem a _ _ j (List.mem_finRange j)

theorem sgn_cast_mul_self (x : K) : ((sgn x : Int) : K) * x = |x| := by
  unfold sgn
  rcases lt_trichotomy x 0 with h | h | h
  · rw [if_neg (ne_of_lt h), if_neg (not_lt.mpr (le_of_lt h)), abs_of_neg h]; simp
  · subst h; simp
  · rw [if_neg (ne_of_gt h), if_pos h, abs_of_pos h]; simp

theorem sgn_cast_sq (x : K) (hx : x ≠ 0) : ((sgn x : Int) : K) * ((sgn x : Int) : K) = 1 := by
  unfold sgn
  rw [if_neg hx]
  split_ifs <;> simp

theorem sgn_cast_mul_abs (x : K) : ((sgn x : Int) : K) * |x| = x := by
  unfold sgn
  rcases lt_trichotomy x 0 with h | h | h
  · rw [if_neg (ne_of_lt h), if_neg (not_lt.mpr (le_of_lt h)), abs_of_neg h]; simp
  · subst h; simp
  · rw [if_neg (ne_of_gt h), if_pos h, abs_of_pos h]; simp

end Generic

section Flag

variable {K : Type} [LinearOrderedField K]

/-- The sampler's flag is the conjunction of the seven per-joint flags. -/
theorem flag_eq_true_iff (t : K) (delta_q dq_max t_1 t_2 t_f q_1 : Fin 7 → K) (thr : K) :
    (calculation_of_desired_values t delta_q dq_max t_1 t_2 t_f q_1 thr).2 = true ↔
      ∀ j, joint_motion_finished t delta_q dq_max t_1 t_2 t_f q_1 thr j = true := by
  simp only [calculation_of_desired_values, joint_motion_finished, Bool.and_eq_true,
    Fin.forall_fin_succ, Fin.succ_zero_eq_one, Fin.succ_one_eq_two]
  constructor
  · rintro ⟨⟨⟨⟨⟨⟨h0, h1⟩, h2⟩, h3⟩, h4⟩, h5⟩, h6⟩
    exact ⟨h0, h1, h2, h3, h4, h5, h6, fun j => Fin.elim0 j⟩
  · rintro ⟨h0, h1, h2, h3, h4, h5, h6, _⟩
    exact ⟨⟨⟨⟨⟨⟨h0, h1⟩, h2⟩, h3⟩, h4⟩, h5⟩, h6⟩

end Flag

section Finished

variable {K : Type} [LinearOrderedField K]

/-- A joint counts as finished exactly in the first and the last branch of the
loop body. -/
theorem desired_joint_finished_iff (t d v T1 T2 Tf q1 thr : K) :
    (desired_joint t d v T1 T2 Tf q1 thr).joint_motion_finished = true ↔
      (|d| < thr ∨ (¬ t < T1 ∧ ¬ t < T2 ∧ ¬ t < Tf)) := by
  unfold desired_joint
  by_cases h0 : |d| < thr
  · simp [h0]
  · by_cases h1 : t < T1
    · simp [h0, h1]
    · by_cases h2 : t < T2
      · simp [h0, h1, h2, not_lt.mp h1]
      · by_cases h3 : t < Tf
        · simp [h0, h1, h2, h3, not_lt.mp h2]
        · simp [h0, h1, h2, h3]

/-- What the loop body writes for a finished joint. -/
theorem desired_joint_of_finished (t d v T1 T2 Tf q1 thr : K)
    (h : |d| < thr ∨ (¬ t < T1 ∧ ¬ t < T2 ∧ ¬ t < Tf)) :
    desired_joint t d v T1 T2 Tf q1 thr = ⟨if |d| < thr then 0 else d, true⟩ := by
  unfold desired_joint
  by_cases h0 : |d| < thr
  · simp [h0]
  · rcases h with h | ⟨h1, h2, h3⟩
    · exact absurd h h0
    · simp [h0, h1, h2, h3]

end Finished

/-! ## The planner over the reals -/

section Generic2

variable {K : Type} [LinearOrderedField K]

/-- For a joint the planner treats as moving, the first loop keeps
`dq_max_reach = dq_max`: the test on lines 165-167 compares `|delta_q|` with
`0 * _ + 0 * _`. -/
theorem unsync_joint_moving (sqrt : K → K) (d v s g thr : K) (hd : thr < |d|) :
    unsync_joint sqrt d v s g thr =
      ⟨v, 1.5 * v / s, 1.5 * v / g, 1.5 * v / s / 2 + 1.5 * v / g / 2 + |d| / v⟩ := by
  have h0 : ¬ (|d| < (((3 / 4 : Int) : K) * (v ^ 2 / s) + ((3 / 4 : Int) : K) * (v ^ 2 / g))) := by
    have : ((3 / 4 : Int) : K) = 0 := by norm_num
    rw [this]
    simp
  unfold unsync_joint
  simp only [gt_iff_lt, hd, if_true, h0, if_false]

theorem unsync_joint_still (sqrt : K → K) (d v s g thr : K) (hd : ¬ thr < |d|) :
    unsync_joint sqrt d v s g thr = ⟨v, 0.0, 0.0, 0.0⟩ := by
  unfold unsync_joint
  simp only [gt_iff_lt, hd, if_false]

end Generic2

/-- The unsynchronized duration of a moving joint is positive. -/
theorem unsync_t_f_pos (sqrt : ℝ → ℝ) (d v s g thr : ℝ) (hthr : 0 < thr) (hd : thr < |d|)
    (hv : 0 < v) (hs : 0 < s) (hg : 0 < g) :
    0 < (unsync_joint sqrt d v s g thr).t_f := by
  rw [unsync_joint_moving sqrt d v s g thr hd]
  have h1 : 0 < |d| := lt_trans hthr hd
  have : 0 < |d| / v := div_pos h1 hv
  have : 0 < 1.5 * v / s / 2 := by positivity
  have : 0 < 1.5 * v / g / 2 := by positivity
  show 0 < 1.5 * v / s / 2 + 1.5 * v / g / 2 + |d| / v
  linarith

/-- Discriminant of the synchronization quadratic: non-negative as soon as
`max_t_f` is at least the unsynchronized duration of the joint. -/
theorem sync_delta_nonneg_of_le (sqrt : ℝ → ℝ) (d v s g thr T : ℝ) (hthr : 0 < thr)
    (hd : thr < |d|) (hv : 0 < v) (hs : 0 < s) (hg : 0 < g)
    (hT : (unsync_joint sqrt d v s g thr).t_f ≤ T) : 0 ≤ sync_delta d s g T := by
  rw [unsync_joint_moving sqrt d v s g thr hd] at hT
  have hT2 : 1.5 * v / s / 2 + 1.5 * v / g / 2 + |d| / v ≤ T := hT
  have h1 : 0 < |d| := lt_trans hthr hd
  set D := |d| with hD
  have hA : 1.5 * v / s / 2 + 1.5 * v / g / 2 = 3 / 4 * v * (g + s) / (g * s) := by
    field_simp; ring
  rw [hA] at hT2
  have hB : 0 < 3 / 4 * v * (g + s) / (g * s) := by positivity
  have hC : 0 < D / v := div_pos h1 hv
  have hsq : (3 / 4 * v * (g + s) / (g * s) + D / v) ^ 2 ≤ T ^ 2 :=
    pow_le_pow_left₀ (by linarith) hT2 2
  have hamgm : 4 * (3 / 4 * v * (g + s) / (g * s)) * (D / v) ≤
      (3 / 4 * v * (g + s) / (g * s) + D / v) ^ 2 := by
    nlinarith [sq_nonneg (3 / 4 * v * (g + s) / (g * s) - D / v)]
  have hprod : 4 * (3 / 4 * v * (g + s) / (g * s)) * (D / v) = 3 * (g + s) * D / (g * s) := by
    field_simp; ring
  rw [hprod] at hamgm
  have hfin : 3 * (g + s) * D / (g * s) ≤ T ^ 2 := le_trans hamgm hsq
  have hgs : 0 < g * s := mul_pos hg hs
  rw [div_le_iff₀ hgs] at hfin
  unfold sync_delta sync_a sync_b sync_c
  rw [← hD]
  norm_num
  nlinarith [mul_le_mul_of_nonneg_right hfin (le_of_lt hgs)]

/-- Facts about the value line 188 computes, written with the square root `r`
of the discriminant: it is positive, it is a root of the quadratic, and it is
the smaller root. -/
theorem small_root_facts (a b c r : ℝ) (ha : 0 < a) (hb : b < 0) (hc : 0 < c)
    (hr0 : 0 ≤ r) (hr : r * r = b * b - 4 * a * c) :
    0 < (-b - r) / (2 * a) ∧
      a * ((-b - r) / (2 * a)) ^ 2 + b * ((-b - r) / (2 * a)) + c = 0 ∧
      a * ((-b - r) / (2 * a)) ^ 2 ≤ c := by
  have hrb : r < -b := by
    by_contra hcon
    push_neg at hcon
    have : (-b) * (-b) ≤ r * r := mul_self_le_mul_self (by linarith) hcon
    nlinarith [mul_pos ha hc]
  have hpos : 0 < (-b - r) / (2 * a) := div_pos (by linarith) (by linarith)
  have hroot : a * ((-b - r) / (2 * a)) ^ 2 + b * ((-b - r) / (2 * a)) + c = 0 := by
    field_simp
    nlinarith
  refine ⟨hpos, hroot, ?_⟩
  have h2 : a * ((-b - r) / (2 * a)) ^ 2 - c = -(((-b - r) / (2 * a)) * r) := by
    have e : 2 * a * ((-b - r) / (2 * a)) = -b - r := by field_simp
    nlinarith
  have : 0 ≤ ((-b - r) / (2 * a)) * r := mul_nonneg (le_of_lt hpos) hr0
  linarith

/-- A moving joint with positive accelerations, positive `max_t_f` and a
non-negative discriminant gets a well-formed synchronized plan whose duration
is `max_t_f`. -/
theorem sync_joint_ok (d s g thr T v0 : ℝ) (hthr : 0 < thr) (hd : thr < |d|)
    (hs : 0 < s) (hg : 0 < g) (hT : 0 < T) (hdelta : 0 ≤ sync_delta d s g T) :
    (sync_joint Real.sqrt d s g thr T v0).t_f_sync = T ∧
    Profile d (sync_joint Real.sqrt d s g thr T v0).dq_max_sync
      (sync_joint Real.sqrt d s g thr T v0).t_1_sync
      (sync_joint Real.sqrt d s g thr T v0).t_2_sync
      (sync_joint Real.sqrt d s g thr T v0).t_f_sync
      (sync_joint Real.sqrt d s g thr T v0).q_1 thr := by
  have hD : 0 < |d| := lt_trans hthr hd
  have ha : 0 < sync_a s g := by unfold sync_a; positivity
  have hb : sync_b s g T < 0 := by
    unfold sync_b
    have : 0 < T * g * s := by positivity
    linarith
  have hc : 0 < sync_c d s g := by unfold sync_c; positivity
  have hr0 : 0 ≤ Real.sqrt (sync_delta d s g T) := Real.sqrt_nonneg _
  have hr : Real.sqrt (sync_delta d s g T) * Real.sqrt (sync_delta d s g T) =
      sync_b s g T * sync_b s g T - 4 * sync_a s g * sync_c d s g := by
    rw [Real.mul_self_sqrt hdelta]
    unfold sync_delta
    norm_num
  obtain ⟨hv, hroot, hsmall⟩ := small_root_facts _ _ _ _ ha hb hc hr0 hr
  have hS : sync_joint Real.sqrt d s g thr T v0 =
      ⟨(-sync_b s g T - Real.sqrt (sync_delta d s g T)) / (2 * sync_a s g),
        1.5 * ((-sync_b s g T - Real.sqrt (sync_delta d s g T)) / (2 * sync_a s g)) / s,
        1.5 * ((-sync_b s g T - Real.sqrt (sync_delta d s g T)) / (2 * sync_a s g)) / s / 2 +
          1.5 * ((-sync_b s g T - Real.sqrt (sync_delta d s g T)) / (2 * sync_a s g)) / g / 2 +
          |d / ((-sync_b s g T - Real.sqrt (sync_delta d s g T)) / (2 * sync_a s g))| -
          1.5 * ((-sync_b s g T - Real.sqrt (sync_delta d s g T)) / (2 * sync_a s g)) / g,
        1.5 * ((-sync_b s g T - Real.sqrt (sync_delta d s g T)) / (2 * sync_a s g)) / g,
        1.5 * ((-sync_b s g T - Real.sqrt (sync_delta d s g T)) / (2 * sync_a s g)) / s / 2 +
          1.5 * ((-sync_b s g T - Real.sqrt (sync_delta d s g T)) / (2 * sync_a s g)) / g / 2 +
          |d / ((-sync_b s g T - Real.sqrt (sync_delta d s g T)) / (2 * sync_a s g))|,
        (-sync_b s g T - Real.sqrt (sync_delta d s g T)) / (2 * sync_a s g) *
          ((sgn d : Int) : ℝ) *
          (0.5 * (1.5 * ((-sync_b s g T - Real.sqrt (sync_delta d s g T)) /
            (2 * sync_a s g)) / s))⟩ := by
    unfold sync_joint
    simp only [gt_iff_lt, hd, if_true]
    norm_num
  rw [hS]
  set v := (-sync_b s g T - Real.sqrt (sync_delta d s g T)) / (2 * sync_a s g) with hvdef
  have habs : |d / v| = |d| / v := by rw [abs_div, abs_of_pos hv]
  rw [habs]
  -- the root equation and the smaller-root inequality in terms of the limits
  have hroot2 : 3 / 4 * (g + s) * v ^ 2 - T * g * s * v + |d| * g * s = 0 := by
    have := hroot
    unfold sync_a sync_b sync_c at this
    norm_num at this
    linarith
  have hsmall2 : 3 / 4 * (g + s) * v ^ 2 ≤ |d| * g * s := by
    have := hsmall
    unfold sync_a sync_c at this
    norm_num at this
    linarith
  have hgs : 0 < g * s := mul_pos hg hs
  have htf : 1.5 * v / s / 2 + 1.5 * v / g / 2 + |d| / v = T := by
    field_simp
    nlinarith
  have hle : 1.5 * v / s / 2 + 1.5 * v / g / 2 ≤ |d| / v := by
    rw [le_div_iff₀ hv]
    have e : (1.5 * v / s / 2 + 1.5 * v / g / 2) * v = 3 / 4 * (g + s) * v ^ 2 / (g * s) := by
      field_simp; ring
    rw [e, div_le_iff₀ hgs]
    linarith
  have ht1 : 0 < 1.5 * v / s := by positivity
  have hd2 : 0 < 1.5 * v / g := by positivity
  have hd0 : d ≠ 0 := by
    intro h0
    rw [h0, abs_zero] at hD
    exact lt_irrefl 0 hD
  refine ⟨htf, hd0, not_lt.mpr (le_of_lt hd), hv, ht1, ?_, ?_, rfl, ?_⟩
  · show 1.5 * v / s ≤ 1.5 * v / s / 2 + 1.5 * v / g / 2 + |d| / v - 1.5 * v / g
    linarith
  · show 1.5 * v / s / 2 + 1.5 * v / g / 2 + |d| / v - 1.5 * v / g <
      1.5 * v / s / 2 + 1.5 * v / g / 2 + |d| / v
    linarith
  · show |d| = v * (1.5 * v / s / 2 + 1.5 * v / g / 2 + |d| / v - 1.5 * v / g -
      1.5 * v / s / 2 + (1.5 * v / s / 2 + 1.5 * v / g / 2 + |d| / v -
      (1.5 * v / s / 2 + 1.5 * v / g / 2 + |d| / v - 1.5 * v / g)) / 2)
    have e : v * (|d| / v) = |d| := by field_simp
    linear_combination -e

/-! ## The three polynomial pieces -/

/-- The acceleration ramp grows on `[0, t_1]`. -/
theorem accel_poly_mono (T a b : ℝ) (ha : 0 ≤ a) (hab : a ≤ b) (hb : b ≤ T) :
    T * a ^ 3 - a ^ 4 / 2 ≤ T * b ^ 3 - b ^ 4 / 2 := by
  have hb0 : 0 ≤ b := le_trans ha hab
  have h1 : 0 ≤ (T - b) * (b ^ 2 + a * b + a ^ 2) :=
    mul_nonneg (by linarith) (by positivity)
  have h2 : 0 ≤ b ^ 3 + a * b ^ 2 + a ^ 2 * (b - a) := by
    have : 0 ≤ a ^ 2 * (b - a) := mul_nonneg (by positivity) (by linarith)
    have : 0 ≤ b ^ 3 := by positivity
    have : 0 ≤ a * b ^ 2 := by positivity
    linarith
  have h3 : 0 ≤ (b - a) * ((T - b) * (b ^ 2 + a * b + a ^ 2) +
      (b ^ 3 + a * b ^ 2 + a ^ 2 * (b - a)) / 2) :=
    mul_nonneg (by linarith) (by linarith)
  have key : T * b ^ 3 - b ^ 4 / 2 - (T * a ^ 3 - a ^ 4 / 2) =
      (b - a) * ((T - b) * (b ^ 2 + a * b + a ^ 2) +
        (b ^ 3 + a * b ^ 2 + a ^ 2 * (b - a)) / 2) := by ring
  linarith

/-- The deceleration blend grows on `[0, delta_t_2]`. -/
theorem decel_poly_mono (D a b : ℝ) (hD : 0 < D) (ha : 0 ≤ a) (hab : a ≤ b) (hb : b ≤ D) :
    1 / D ^ 3 * (a - 2 * D) * a ^ 3 + (2 * a - D) ≤
      1 / D ^ 3 * (b - 2 * D) * b ^ 3 + (2 * b - D) := by
  have h := accel_poly_mono D (D - b) (D - a) (by linarith) (by linarith) (by linarith)
  have hD3 : 0 < D ^ 3 := by positivity
  have key : (1 / D ^ 3 * (b - 2 * D) * b ^ 3 + (2 * b - D)) -
      (1 / D ^ 3 * (a - 2 * D) * a ^ 3 + (2 * a - D)) =
      2 * ((D * (D - a) ^ 3 - (D - a) ^ 4 / 2) - (D * (D - b) ^ 3 - (D - b) ^ 4 / 2)) / D ^ 3 := by
    field_simp
    ring
  have : 0 ≤ 2 * ((D * (D - a) ^ 3 - (D - a) ^ 4 / 2) -
      (D * (D - b) ^ 3 - (D - b) ^ 4 / 2)) / D ^ 3 :=
    div_nonneg (by linarith) (le_of_lt hD3)
  linarith

/-! ## The sampler on a well-formed joint plan -/

section Sampler

variable (d v T1 T2 Tf q1 thr : ℝ)

theorem signed_accel (t : ℝ) (hd : d ≠ 0) (hmov : ¬ |d| < thr) (ht : t < T1) :
    ((sgn d : Int) : ℝ) * (desired_joint t d v T1 T2 Tf q1 thr).delta_q_d =
      v / T1 ^ 3 * (T1 * t ^ 3 - t ^ 4 / 2) := by
  have hσ := sgn_cast_sq d hd
  simp only [desired_joint, hmov, if_false, ht, if_true, accel_value]
  linear_combination (-1 / T1 ^ 3 * v * (0.5 * t - T1) * t ^ 3) * hσ

theorem signed_const (t : ℝ) (hd : d ≠ 0) (hmov : ¬ |d| < thr) (h1 : T1 ≤ t) (h2 : t < T2)
    (hq : q1 = v * ((sgn d : Int) : ℝ) * (0.5 * T1)) :
    ((sgn d : Int) : ℝ) * (desired_joint t d v T1 T2 Tf q1 thr).delta_q_d =
      v * T1 / 2 + (t - T1) * v := by
  have hσ := sgn_cast_sq d hd
  have c2 : t ≥ T1 ∧ t < T2 := ⟨h1, h2⟩
  simp only [desired_joint, hmov, if_false, not_lt.mpr h1, if_pos c2, const_value]
  rw [hq]
  linear_combination (v * (0.5 * T1) + (t - T1) * v) * hσ

theorem signed_decel (t : ℝ) (hd : d ≠ 0) (hmov : ¬ |d| < thr) (h1 : T1 ≤ T2) (h2 : T2 ≤ t)
    (h3 : t < Tf) :
    ((sgn d : Int) : ℝ) * (desired_joint t d v T1 T2 Tf q1 thr).delta_q_d =
      |d| + (1 / (Tf - T2) ^ 3 * ((t - T2) - 2 * (Tf - T2)) * (t - T2) ^ 3 +
        (2 * (t - T2) - (Tf - T2))) * (v / 2) := by
  have hσ := sgn_cast_sq d hd
  have hσd := sgn_cast_mul_self d
  have c3 : t ≥ T2 ∧ t < Tf := ⟨h2, h3⟩
  simp only [desired_joint, hmov, if_false, not_lt.mpr (le_trans h1 h2), not_lt.mpr h2,
    false_and, and_false, if_pos c3, decel_value]
  have e1 : t - T1 - (T2 - T1) = t - T2 := by ring
  have e2 : t - T1 - 2 * (Tf - T2) - (T2 - T1) = (t - T2) - 2 * (Tf - T2) := by ring
  have e3 : 2 * t - 2 * T1 - (Tf - T2) - 2 * (T2 - T1) = 2 * (t - T2) - (Tf - T2) := by ring
  rw [e1, e2, e3]
  generalize Tf - T2 = D
  generalize t - T2 = u
  generalize 1 / D ^ 3 = k
  linear_combination hσd + ((k * (u - 2 * D) * u ^ 3 + (2 * u - D)) * (v / 2)) * hσ

theorem value_end (t : ℝ) (hmov : ¬ |d| < thr) (h1 : T1 ≤ T2) (h2 : T2 ≤ Tf) (h3 : Tf ≤ t) :
    desired_joint t d v T1 T2 Tf q1 thr = ⟨d, true⟩ := by
  simp only [desired_joint, hmov, if_false, not_lt.mpr (le_trans h1 (le_trans h2 h3)),
    not_lt.mpr (le_trans h2 h3), not_lt.mpr h3, false_and, and_false]

theorem value_still (t : ℝ) (hstill : |d| < thr) :
    desired_joint t d v T1 T2 Tf q1 thr = ⟨0, true⟩ := by
  simp only [desired_joint, hstill, if_true]

end Sampler

section ProfileFacts

variable {d v T1 T2 Tf q1 thr : ℝ}

theorem accel_scaled_mono (h : Profile d v T1 T2 Tf q1 thr) (a b : ℝ) (ha : 0 ≤ a)
    (hab : a ≤ b) (hb : b ≤ T1) :
    v / T1 ^ 3 * (T1 * a ^ 3 - a ^ 4 / 2) ≤ v / T1 ^ 3 * (T1 * b ^ 3 - b ^ 4 / 2) := by
  have hk : 0 ≤ v / T1 ^ 3 := div_nonneg (le_of_lt h.v_pos) (pow_nonneg (le_of_lt h.t_1_pos) 3)
  exact mul_le_mul_of_nonneg_left (accel_poly_mono T1 a b ha hab hb) hk

theorem accel_scaled_zero (v T1 : ℝ) :
    v / T1 ^ 3 * (T1 * (0 : ℝ) ^ 3 - (0 : ℝ) ^ 4 / 2) = 0 := by
  simp

theorem accel_scaled_end (h : Profile d v T1 T2 Tf q1 thr) :
    v / T1 ^ 3 * (T1 * T1 ^ 3 - T1 ^ 4 / 2) = v * T1 / 2 := by
  have := h.t_1_pos
  field_simp
  ring

theorem decel_scaled_mono (h : Profile d v T1 T2 Tf q1 thr) (a b : ℝ) (ha : T2 ≤ a)
    (hab : a ≤ b) (hb : b ≤ Tf) :
    |d| + (1 / (Tf - T2) ^ 3 * ((a - T2) - 2 * (Tf - T2)) * (a - T2) ^ 3 +
        (2 * (a - T2) - (Tf - T2))) * (v / 2) ≤
      |d| + (1 / (Tf - T2) ^ 3 * ((b - T2) - 2 * (Tf - T2)) * (b - T2) ^ 3 +
        (2 * (b - T2) - (Tf - T2))) * (v / 2) := by
  have hD : 0 < Tf - T2 := by linarith [h.t_2_lt]
  have hm := decel_poly_mono (Tf - T2) (a - T2) (b - T2) hD (by linarith) (by linarith)
    (by linarith)
  have hv : 0 ≤ v / 2 := by linarith [h.v_pos]
  have := mul_le_mul_of_nonneg_right hm hv
  linarith

theorem decel_scaled_start (h : Profile d v T1 T2 Tf q1 thr) :
    |d| + (1 / (Tf - T2) ^ 3 * ((T2 - T2) - 2 * (Tf - T2)) * (T2 - T2) ^ 3 +
        (2 * (T2 - T2) - (Tf - T2))) * (v / 2) = v * T1 / 2 + (T2 - T1) * v := by
  rw [h.dist]
  simp
  ring

theorem decel_scaled_end (h : Profile d v T1 T2 Tf q1 thr) :
    |d| + (1 / (Tf - T2) ^ 3 * ((Tf - T2) - 2 * (Tf - T2)) * (Tf - T2) ^ 3 +
        (2 * (Tf - T2) - (Tf - T2))) * (v / 2) = |d| := by
  have hD : Tf - T2 ≠ 0 := by linarith [h.t_2_lt]
  field_simp

/-- Signed displacement of one joint at time `t`. -/
theorem signed_phase_bounds (h : Profile d v T1 T2 Tf q1 thr) (t : ℝ) (ht : 0 ≤ t) :
    (t < T1 → 0 ≤ ((sgn d : Int) : ℝ) * (desired_joint t d v T1 T2 Tf q1 thr).delta_q_d ∧
      ((sgn d : Int) : ℝ) * (desired_joint t d v T1 T2 Tf q1 thr).delta_q_d ≤ v * T1 / 2) ∧
    (T1 ≤ t → t < T2 →
      v * T1 / 2 ≤ ((sgn d : Int) : ℝ) * (desired_joint t d v T1 T2 Tf q1 thr).delta_q_d ∧
      ((sgn d : Int) : ℝ) * (desired_joint t d v T1 T2 Tf q1 thr).delta_q_d ≤
        v * T1 / 2 + (T2 - T1) * v) ∧
    (T2 ≤ t → t < Tf →
      v * T1 / 2 + (T2 - T1) * v ≤
        ((sgn d : Int) : ℝ) * (desired_joint t d v T1 T2 Tf q1 thr).delta_q_d ∧
      ((sgn d : Int) : ℝ) * (desired_joint t d v T1 T2 Tf q1 thr).delta_q_d ≤ |d|) ∧
    (Tf ≤ t → ((sgn d : Int) : ℝ) * (desired_joint t d v T1 T2 Tf q1 thr).delta_q_d = |d|) := by
  refine ⟨fun h1 => ?_, fun h1 h2 => ?_, fun h1 h2 => ?_, fun h1 => ?_⟩
  · rw [signed_accel d v T1 T2 Tf q1 thr t h.d_ne h.moving h1]
    constructor
    · have := accel_scaled_mono h 0 t le_rfl ht (le_of_lt h1)
      rw [accel_scaled_zero v T1] at this
      exact this
    · have := accel_scaled_mono h t T1 ht (le_of_lt h1) le_rfl
      rw [accel_scaled_end h] at this
      exact this
  · rw [signed_const d v T1 T2 Tf q1 thr t h.d_ne h.moving h1 h2 h.q_1_eq]
    have := h.v_pos
    constructor
    · nlinarith
    · nlinarith
  · rw [signed_decel d v T1 T2 Tf q1 thr t h.d_ne h.moving h.t_1_le h1 h2]
    constructor
    · have := decel_scaled_mono h T2 t le_rfl h1 (le_of_lt h2)
      rw [decel_scaled_start h] at this
      exact this
    · have := decel_scaled_mono h t Tf h1 (le_of_lt h2) le_rfl
      rw [decel_scaled_end h] at this
      exact this
  · rw [value_end d v T1 T2 Tf q1 thr t h.moving h.t_1_le (le_of_lt h.t_2_lt) h1]
    exact sgn_cast_mul_self d

/-- The signed displacement of one joint never decreases. -/
theorem signed_mono (h : Profile d v T1 T2 Tf q1 thr) (a b : ℝ) (ha : 0 ≤ a) (hab : a ≤ b) :
    ((sgn d : Int) : ℝ) * (desired_joint a d v T1 T2 Tf q1 thr).delta_q_d ≤
      ((sgn d : Int) : ℝ) * (desired_joint b d v T1 T2 Tf q1 thr).delta_q_d := by
  have hb : 0 ≤ b := le_trans ha hab
  obtain ⟨a1, a2, a3, a4⟩ := signed_phase_bounds h a ha
  obtain ⟨b1, b2, b3, b4⟩ := signed_phase_bounds h b hb
  have hv := h.v_pos
  have h12 := h.t_1_le
  have hE : v * T1 / 2 ≤ v * T1 / 2 + (T2 - T1) * v := by nlinarith
  have hE2 : v * T1 / 2 + (T2 - T1) * v ≤ |d| := by
    rw [h.dist]
    nlinarith [h.t_2_lt]
  rcases lt_or_le a T1 with ha1 | ha1
  · rcases lt_or_le b T1 with hb1 | hb1
    · rw [signed_accel d v T1 T2 Tf q1 thr a h.d_ne h.moving ha1,
        signed_accel d v T1 T2 Tf q1 thr b h.d_ne h.moving hb1]
      exact accel_scaled_mono h a b ha hab (le_of_lt hb1)
    · rcases lt_or_le b T2 with hb2 | hb2
      · linarith [(a1 ha1).2, (b2 hb1 hb2).1]
      · rcases lt_or_le b Tf with hb3 | hb3
        · linarith [(a1 ha1).2, (b3 hb2 hb3).1]
        · linarith [(a1 ha1).2, b4 hb3]
  · rcases lt_or_le a T2 with ha2 | ha2
    · rcases lt_or_le b T2 with hb2 | hb2
      · rw [signed_const d v T1 T2 Tf q1 thr a h.d_ne h.moving ha1 ha2 h.q_1_eq,
          signed_const d v T1 T2 Tf q1 thr b h.d_ne h.moving (le_trans ha1 hab) hb2 h.q_1_eq]
        nlinarith
      · rcases lt_or_le b Tf with hb3 | hb3
        · linarith [(a2 ha1 ha2).2, (b3 hb2 hb3).1]
        · linarith [(a2 ha1 ha2).2, b4 hb3]
    · rcases lt_or_le a Tf with ha3 | ha3
      · rcases lt_or_le b Tf with hb3 | hb3
        · rw [signed_decel d v T1 T2 Tf q1 thr a h.d_ne h.moving h.t_1_le ha2 ha3,
            signed_decel d v T1 T2 Tf q1 thr b h.d_ne h.moving h.t_1_le (le_trans ha2 hab) hb3]
          exact decel_scaled_mono h a b ha2 hab (le_of_lt hb3)
        · linarith [(a3 ha2 ha3).2, b4 hb3]
      · linarith [a4 ha3, b4 (le_trans ha3 hab)]

end ProfileFacts

/-! ## Plans computed by the planner -/

section Planned

variable (q_start q_goal dq_max ddq_max_start ddq_max_goal : Fin 7 → ℝ) (thr : ℝ)
  (dq_max_sync_0 : Fin 7 → ℝ)

/-- A moving joint of a planner-computed plan has duration `max_t_f`, a
non-negative discriminant, and satisfies the hypotheses `Profile`. -/
theorem plan_moving_joint (hthr : 0 < thr)
    (hlim : ∀ j, 0 < dq_max j ∧ 0 < ddq_max_start j ∧ 0 < ddq_max_goal j) (j : Fin 7)
    (hj : thr < |(plan_motion Real.sqrt q_start q_goal dq_max ddq_max_start ddq_max_goal thr
      dq_max_sync_0).delta_q j|) :
    (plan_motion Real.sqrt q_start q_goal dq_max ddq_max_start ddq_max_goal thr
        dq_max_sync_0).t_f j ≤
      (plan_motion Real.sqrt q_start q_goal dq_max ddq_max_start ddq_max_goal thr
        dq_max_sync_0).max_t_f ∧
    0 ≤ sync_delta
      ((plan_motion Real.sqrt q_start q_goal dq_max ddq_max_start ddq_max_goal thr
        dq_max_sync_0).delta_q j) (ddq_max_start j) (ddq_max_goal j)
      (plan_motion Real.sqrt q_start q_goal dq_max ddq_max_start ddq_max_goal thr
        dq_max_sync_0).max_t_f ∧
    (plan_motion Real.sqrt q_start q_goal dq_max ddq_max_start ddq_max_goal thr
        dq_max_sync_0).t_f_sync j =
      (plan_motion Real.sqrt q_start q_goal dq_max ddq_max_start ddq_max_goal thr
        dq_max_sync_0).max_t_f ∧
    Profile
      ((plan_motion Real.sqrt q_start q_goal dq_max ddq_max_start ddq_max_goal thr
        dq_max_sync_0).delta_q j)
      ((plan_motion Real.sqrt q_start q_goal dq_max ddq_max_start ddq_max_goal thr
        dq_max_sync_0).dq_max_sync j)
      ((plan_motion Real.sqrt q_start q_goal dq_max ddq_max_start ddq_max_goal thr
        dq_max_sync_0).t_1_sync j)
      ((plan_motion Real.sqrt q_start q_goal dq_max ddq_max_start ddq_max_goal thr
        dq_max_sync_0).t_2_sync j)
      ((plan_motion Real.sqrt q_start q_goal dq_max ddq_max_start ddq_max_goal thr
        dq_max_sync_0).t_f_sync j)
      ((plan_motion Real.sqrt q_start q_goal dq_max ddq_max_start ddq_max_goal thr
        dq_max_sync_0).q_1 j) thr := by
  obtain ⟨hv, hs, hg⟩ := hlim j
  simp only [plan_motion] at hj ⊢
  set d := sub q_goal q_start j with hd
  set T := max_vector (fun i => (unsync_joint Real.sqrt (sub q_goal q_start i) (dq_max i)
    (ddq_max_start i) (ddq_max_goal i) thr).t_f) with hT
  have hle : (unsync_joint Real.sqrt d (dq_max j) (ddq_max_start j) (ddq_max_goal j) thr).t_f
      ≤ T :=
    max_vector_ge (fun i => (unsync_joint Real.sqrt (sub q_goal q_start i) (dq_max i)
      (ddq_max_start i) (ddq_max_goal i) thr).t_f) j
  have hpos := unsync_t_f_pos Real.sqrt d (dq_max j) (ddq_max_start j) (ddq_max_goal j) thr
    hthr hj hv hs hg
  have hTpos : 0 < T := lt_of_lt_of_le hpos hle
  have hdelta := sync_delta_nonneg_of_le Real.sqrt d (dq_max j) (ddq_max_start j)
    (ddq_max_goal j) thr T hthr hj hv hs hg hle
  have hok := sync_joint_ok d (ddq_max_start j) (ddq_max_goal j) thr T (dq_max_sync_0 j)
    hthr hj hs hg hTpos hdelta
  exact ⟨hle, hdelta, hok.1, hok.2⟩

/-- A joint the planner skips keeps zero timing constants. -/
theorem plan_still_joint (j : Fin 7)
    (hj : ¬ thr < |(plan_motion Real.sqrt q_start q_goal dq_max ddq_max_start ddq_max_goal thr
      dq_max_sync_0).delta_q j|) :
    (plan_motion Real.sqrt q_start q_goal dq_max ddq_max_start ddq_max_goal thr
        dq_max_sync_0).t_1_sync j = 0 ∧
    (plan_motion Real.sqrt q_start q_goal dq_max ddq_max_start ddq_max_goal thr
        dq_max_sync_0).t_2_sync j = 0 ∧
    (plan_motion Real.sqrt q_start q_goal dq_max ddq_max_start ddq_max_goal thr
        dq_max_sync_0).t_f_sync j = 0 ∧
    (plan_motion Real.sqrt q_start q_goal dq_max ddq_max_start ddq_max_goal thr
        dq_max_sync_0).q_1 j = 0 := by
  simp only [plan_motion] at hj ⊢
  simp only [sync_joint, gt_iff_lt, hj, if_false]
  norm_num

end Planned

/-- The unscaled limit arrays of `main` (lines 135-137) are positive. -/
theorem limits_init_pos : ∀ j, 0 < (dq_max_init : Fin 7 → ℝ) j ∧
    0 < (ddq_max_start_init : Fin 7 → ℝ) j ∧ 0 < (ddq_max_goal_init : Fin 7 → ℝ) j := by
  simp [Fin.forall_fin_succ, dq_max_init, ddq_max_start_init, ddq_max_goal_init]
  norm_num

/-- Scaling by a positive speed factor keeps the limit arrays of `main` positive. -/
theorem scaled_limits_pos (speed_factor : ℝ) (h : 0 < speed_factor) :
    ∀ j, 0 < scale speed_factor (dq_max_init : Fin 7 → ℝ) j ∧
      0 < scale speed_factor (ddq_max_start_init : Fin 7 → ℝ) j ∧
      0 < scale speed_factor (ddq_max_goal_init : Fin 7 → ℝ) j := fun j =>
  ⟨mul_pos h (limits_init_pos j).1, mul_pos h (limits_init_pos j).2.1,
    mul_pos h (limits_init_pos j).2.2⟩

/-- Joint 3 of the single-joint run is a moving joint. -/
theorem scenario_moving :
    |(scenario_plan Real.sqrt).delta_q 3| > (delta_q_motion_finished_main : ℝ) := by
  have e : (scenario_plan Real.sqrt).delta_q 3 = 0.2 := by
    simp [scenario_plan, plan_motion, sub, scenario_goal]
  rw [e, abs_of_pos (by norm_num)]
  unfold delta_q_motion_finished_main
  norm_num

/-- The threshold of `main` (line 143) is positive. -/
theorem threshold_main_pos : (0 : ℝ) < delta_q_motion_finished_main := by
  unfold delta_q_motion_finished_main
  norm_num

/-! ## Continuity -/

section ProfileContinuity

variable {d v T1 T2 Tf q1 thr : ℝ}

/-- The acceleration expression at `t_1` is `q_1`. -/
theorem accel_at_t_1 (h : Profile d v T1 T2 Tf q1 thr) :
    accel_value T1 v T1 (sgn d) = q1 := by
  have h1 : T1 ≠ 0 := ne_of_gt h.t_1_pos
  rw [h.q_1_eq]
  unfold accel_value
  field_simp
  ring

/-- The constant-velocity expression and the deceleration expression agree at `t_2`. -/
theorem const_at_t_2 (h : Profile d v T1 T2 Tf q1 thr) :
    const_value T2 v T1 q1 (sgn d) = decel_value T2 d v T1 (T2 - T1) (Tf - T2) (sgn d) := by
  have hd : d = ((sgn d : Int) : ℝ) * (v * (T2 - T1 / 2 + (Tf - T2) / 2)) := by
    rw [← h.dist]
    exact (sgn_cast_mul_abs d).symm
  rw [h.q_1_eq]
  unfold const_value decel_value
  have e : T2 - T1 - (T2 - T1) = 0 := by ring
  rw [e]
  norm_num
  linear_combination -hd

/-- The deceleration expression at `t_f` is `delta_q`. -/
theorem decel_at_t_f (h : Profile d v T1 T2 Tf q1 thr) :
    decel_value Tf d v T1 (T2 - T1) (Tf - T2) (sgn d) = d := by
  have hD : Tf - T2 ≠ 0 := by linarith [h.t_2_lt]
  unfold decel_value
  have e1 : Tf - T1 - (T2 - T1) = Tf - T2 := by ring
  have e2 : Tf - T1 - 2 * (Tf - T2) - (T2 - T1) = -(Tf - T2) := by ring
  have e3 : 2 * Tf - 2 * T1 - (Tf - T2) - 2 * (T2 - T1) = Tf - T2 := by ring
  rw [e1, e2, e3]
  have e4 : 1 / (Tf - T2) ^ 3 * -(Tf - T2) * (Tf - T2) ^ 3 + (Tf - T2) = 0 := by
    field_simp
  rw [e4]
  ring

/-- The sampled displacement of a well-formed joint plan is continuous in `t`. -/
theorem profile_continuous (h : Profile d v T1 T2 Tf q1 thr) :
    Continuous (fun t => (desired_joint t d v T1 T2 Tf q1 thr).delta_q_d) := by
  have hfun : (fun t => (desired_joint t d v T1 T2 Tf q1 thr).delta_q_d) =
      fun t => if T1 ≤ t then
          (if T2 ≤ t then
            (if Tf ≤ t then d else decel_value t d v T1 (T2 - T1) (Tf - T2) (sgn d))
           else const_value t v T1 q1 (sgn d))
        else accel_value t v T1 (sgn d) := by
    funext t
    simp only [desired_joint, h.moving, if_false]
    by_cases c1 : T1 ≤ t
    · by_cases c2 : T2 ≤ t
      · by_cases c3 : Tf ≤ t
        · simp only [c1, c2, c3, not_lt.mpr c1, not_lt.mpr c2, not_lt.mpr c3, if_true, if_false,
            and_false, false_and]
        · simp only [c1, c2, c3, not_lt.mpr c1, not_lt.mpr c2, not_le.mp c3, if_true, if_false,
            and_false, false_and, ge_iff_le, and_self]
      · simp only [c1, c2, not_lt.mpr c1, not_le.mp c2, if_true, if_false,
            ge_iff_le, and_self]
    · simp only [c1, not_le.mp c1, if_true, if_false]
  rw [hfun]
  have hA : Continuous (fun t : ℝ => accel_value t v T1 (sgn d)) := by
    unfold accel_value
    fun_prop
  have hC : Continuous (fun t : ℝ => const_value t v T1 q1 (sgn d)) := by
    unfold const_value
    fun_prop
  have hD : Continuous (fun t : ℝ => decel_value t d v T1 (T2 - T1) (Tf - T2) (sgn d)) := by
    unfold decel_value
    fun_prop
  have hE : Continuous (fun t : ℝ =>
      if Tf ≤ t then d else decel_value t d v T1 (T2 - T1) (Tf - T2) (sgn d)) := by
    refine Continuous.if_le continuous_const hD continuous_const continuous_id ?_
    intro x hx
    rw [← hx]
    exact (decel_at_t_f h).symm
  have hCE : Continuous (fun t : ℝ =>
      if T2 ≤ t then
        (if Tf ≤ t then d else decel_value t d v T1 (T2 - T1) (Tf - T2) (sgn d))
      else const_value t v T1 q1 (sgn d)) := by
    refine Continuous.if_le hE hC continuous_const continuous_id ?_
    intro x hx
    rw [← hx, if_neg (not_le.mpr h.t_2_lt)]
    exact (const_at_t_2 h).symm
  refine Continuous.if_le hCE hA continuous_const continuous_id ?_
  intro x hx
  rw [← hx, accel_at_t_1 h]
  by_cases c2 : T2 ≤ T1
  · have e : T2 = T1 := le_antisymm c2 h.t_1_le
    rw [if_pos c2, if_neg (not_le.mpr (lt_of_le_of_lt h.t_1_le h.t_2_lt))]
    have hc := const_at_t_2 h
    rw [e] at hc
    rw [e, ← hc]
    unfold const_value
    ring
  · rw [if_neg c2]
    unfold const_value
    ring

end ProfileContinuity

/-! ## End of trajectory, synchronization, start of trajectory -/

/-- C1 (as stated, refuted). With the program's threshold `0.000001` and limits,
a start/goal pair whose joint 0 differs by `0.0000005` gives `t_f_sync[0] = 0`, and
sampling at `t = 0 ≥ t_f_sync[0]` writes `delta_q_d[0] = 0`, which is not
`delta_q[0] = 0.0000005`. -/
theorem end_of_trajectory_below_threshold :
    (0 : ℝ) < delta_q_motion_finished_main ∧
    (∀ j, 0 < (dq_max_init : Fin 7 → ℝ) j ∧ 0 < (ddq_max_start_init : Fin 7 → ℝ) j ∧
      0 < (ddq_max_goal_init : Fin 7 → ℝ) j) ∧
    (0 : ℝ) ≥ (plan_motion Real.sqrt (fun _ => 0) ![0.0000005, 0, 0, 0, 0, 0, 0] dq_max_init
      ddq_max_start_init ddq_max_goal_init delta_q_motion_finished_main (fun _ => 0)).t_f_sync 0 ∧
    (sample (plan_motion Real.sqrt (fun _ => 0) ![0.0000005, 0, 0, 0, 0, 0, 0] dq_max_init
      ddq_max_start_init ddq_max_goal_init delta_q_motion_finished_main (fun _ => 0))
      delta_q_motion_finished_main 0).1 0 = 0 ∧
    (plan_motion Real.sqrt (fun _ => 0) ![0.0000005, 0, 0, 0, 0, 0, 0] dq_max_init
      ddq_max_start_init ddq_max_goal_init delta_q_motion_finished_main (fun _ => 0)).delta_q 0 =
      0.0000005 ∧
    (sample (plan_motion Real.sqrt (fun _ => 0) ![0.0000005, 0, 0, 0, 0, 0, 0] dq_max_init
      ddq_max_start_init ddq_max_goal_init delta_q_motion_finished_main (fun _ => 0))
      delta_q_motion_finished_main 0).1 0 ≠
    (plan_motion Real.sqrt (fun _ => 0) ![0.0000005, 0, 0, 0, 0, 0, 0] dq_max_init
      ddq_max_start_init ddq_max_goal_init delta_q_motion_finished_main (fun _ => 0)).delta_q 0 := by
  have hd : (plan_motion Real.sqrt (fun _ => 0) ![0.0000005, 0, 0, 0, 0, 0, 0] dq_max_init
      ddq_max_start_init ddq_max_goal_init delta_q_motion_finished_main (fun _ => 0)).delta_q 0 =
      0.0000005 := by
    simp [plan_motion, sub]
  have hsmall : |(0.0000005 : ℝ)| < delta_q_motion_finished_main := by
    unfold delta_q_motion_finished_main
    rw [abs_of_pos (by norm_num)]
    norm_num
  have hnot : ¬ delta_q_motion_finished_main <
      |(plan_motion Real.sqrt (fun _ => 0) ![0.0000005, 0, 0, 0, 0, 0, 0] dq_max_init
      ddq_max_start_init ddq_max_goal_init delta_q_motion_finished_main
      (fun _ => 0)).delta_q 0| := by
    rw [hd]
    exact not_lt.mpr (le_of_lt hsmall)
  have hs : (sample (plan_motion Real.sqrt (fun _ => 0) ![0.0000005, 0, 0, 0, 0, 0, 0]
      dq_max_init ddq_max_start_init ddq_max_goal_init delta_q_motion_finished_main
      (fun _ => 0)) delta_q_motion_finished_main 0).1 0 = 0 := by
    show (desired_joint _ _ _ _ _ _ _ _).delta_q_d = 0
    rw [hd, value_still _ _ _ _ _ _ _ _ hsmall]
  refine ⟨threshold_main_pos, limits_init_pos, ?_, hs, hd, ?_⟩
  · rw [(plan_still_joint _ _ _ _ _ _ _ 0 hnot).2.2.1]
  · rw [hs, hd]
    norm_num

/-- C1 (amended). For a planner-computed plan with positive threshold and
strictly positive limits, every joint `j` and every `t ≥ t_f_sync[j]`: joint `j`
counts as finished, and `delta_q_d[j]` is `delta_q[j]` when `|delta_q[j]|` is not
below the threshold and `0` when it is below the threshold. -/
theorem end_of_trajectory (q_start q_goal dq_max ddq_max_start ddq_max_goal : Fin 7 → ℝ)
    (thr : ℝ) (dq_max_sync_0 : Fin 7 → ℝ) (hthr : 0 < thr)
    (hlim : ∀ j, 0 < dq_max j ∧ 0 < ddq_max_start j ∧ 0 < ddq_max_goal j)
    (j : Fin 7) (t : ℝ)
    (ht : t ≥ (plan_motion Real.sqrt q_start q_goal dq_max ddq_max_start ddq_max_goal thr
      dq_max_sync_0).t_f_sync j) :
    sample_finished (plan_motion Real.sqrt q_start q_goal dq_max ddq_max_start ddq_max_goal
      thr dq_max_sync_0) thr t j = true ∧
    (sample (plan_motion Real.sqrt q_start q_goal dq_max ddq_max_start ddq_max_goal thr
      dq_max_sync_0) thr t).1 j =
      if |(plan_motion Real.sqrt q_start q_goal dq_max ddq_max_start ddq_max_goal thr
        dq_max_sync_0).delta_q j| < thr then 0
      else (plan_motion Real.sqrt q_start q_goal dq_max ddq_max_start ddq_max_goal thr
        dq_max_sync_0).delta_q j := by
  show (desired_joint _ _ _ _ _ _ _ _).joint_motion_finished = true ∧
    (desired_joint _ _ _ _ _ _ _ _).delta_q_d = _
  by_cases hstill : |(plan_motion Real.sqrt q_start q_goal dq_max ddq_max_start ddq_max_goal
      thr dq_max_sync_0).delta_q j| < thr
  · rw [value_still _ _ _ _ _ _ _ _ hstill, if_pos hstill]
    exact ⟨rfl, rfl⟩
  · rw [if_neg hstill]
    by_cases hmov : thr < |(plan_motion Real.sqrt q_start q_goal dq_max ddq_max_start
        ddq_max_goal thr dq_max_sync_0).delta_q j|
    · obtain ⟨_, _, _, hp⟩ := plan_moving_joint q_start q_goal dq_max ddq_max_start
        ddq_max_goal thr dq_max_sync_0 hthr hlim j hmov
      rw [value_end _ _ _ _ _ _ _ t hstill hp.t_1_le (le_of_lt hp.t_2_lt) ht]
      exact ⟨rfl, rfl⟩
    · obtain ⟨e1, e2, e3, _⟩ := plan_still_joint q_start q_goal dq_max ddq_max_start
        ddq_max_goal thr dq_max_sync_0 j hmov
      have ht0 : (0 : ℝ) ≤ t := by rw [e3] at ht; exact ht
      rw [e1, e2, e3, value_end _ _ _ _ _ _ _ t hstill le_rfl le_rfl ht0]
      exact ⟨rfl, rfl⟩

/-- Witness for `end_of_trajectory`: the single-joint run, joint 3 sampled at
its own finish time. -/
theorem end_of_trajectory_witness :
    sample_finished (scenario_plan Real.sqrt) delta_q_motion_finished_main
      ((scenario_plan Real.sqrt).t_f_sync 3) 3 = true ∧
    (sample (scenario_plan Real.sqrt) delta_q_motion_finished_main
      ((scenario_plan Real.sqrt).t_f_sync 3)).1 3 =
      if |(scenario_plan Real.sqrt).delta_q 3| < delta_q_motion_finished_main then 0
      else (scenario_plan Real.sqrt).delta_q 3 :=
  end_of_trajectory (fun _ => 0) scenario_goal (scale 0.5 dq_max_init)
    (scale 0.5 ddq_max_start_init) (scale 0.5 ddq_max_goal_init) delta_q_motion_finished_main
    (fun _ => 0) threshold_main_pos (scaled_limits_pos 0.5 (by norm_num)) 3 _ (le_refl _)

/-- C2. For a planner-computed plan with positive threshold and strictly
positive limits, a joint `j` with `|delta_q[j]| > threshold` gets
`t_f_sync[j] = max_t_f`, the value `max_vector` returns for the unsynchronized
array `t_f`; hence every moving joint `i` has the same `t_f_sync` as `j`. -/
theorem synchronization (q_start q_goal dq_max ddq_max_start ddq_max_goal : Fin 7 → ℝ)
    (thr : ℝ) (dq_max_sync_0 : Fin 7 → ℝ) (hthr : 0 < thr)
    (hlim : ∀ j, 0 < dq_max j ∧ 0 < ddq_max_start j ∧ 0 < ddq_max_goal j) (j : Fin 7)
    (hj : |(plan_motion Real.sqrt q_start q_goal dq_max ddq_max_start ddq_max_goal thr
        dq_max_sync_0).delta_q j| > thr) :
    (plan_motion Real.sqrt q_start q_goal dq_max ddq_max_start ddq_max_goal thr
        dq_max_sync_0).t_f_sync j =
      max_vector (unsync_t_f Real.sqrt q_start q_goal dq_max ddq_max_start ddq_max_goal thr) ∧
    ∀ i, |(plan_motion Real.sqrt q_start q_goal dq_max ddq_max_start ddq_max_goal thr
        dq_max_sync_0).delta_q i| > thr →
      (plan_motion Real.sqrt q_start q_goal dq_max ddq_max_start ddq_max_goal thr
        dq_max_sync_0).t_f_sync i =
      (plan_motion Real.sqrt q_start q_goal dq_max ddq_max_start ddq_max_goal thr
        dq_max_sync_0).t_f_sync j := by
  have key : ∀ i, |(plan_motion Real.sqrt q_start q_goal dq_max ddq_max_start ddq_max_goal thr
        dq_max_sync_0).delta_q i| > thr →
      (plan_motion Real.sqrt q_start q_goal dq_max ddq_max_start ddq_max_goal thr
        dq_max_sync_0).t_f_sync i =
      max_vector (unsync_t_f Real.sqrt q_start q_goal dq_max ddq_max_start ddq_max_goal thr) :=
    fun i hi => (plan_moving_joint q_start q_goal dq_max ddq_max_start ddq_max_goal thr
      dq_max_sync_0 hthr hlim i hi).2.2.1
  exact ⟨key j hj, fun i hi => (key i hi).trans (key j hj).symm⟩

/-- Witness for `synchronization`: joint 3 of the single-joint run. -/
theorem synchronization_witness :
    (scenario_plan Real.sqrt).t_f_sync 3 =
      max_vector (unsync_t_f Real.sqrt (fun _ => 0) scenario_goal (scale 0.5 dq_max_init)
        (scale 0.5 ddq_max_start_init) (scale 0.5 ddq_max_goal_init)
        delta_q_motion_finished_main) ∧
    ∀ i, |(scenario_plan Real.sqrt).delta_q i| > delta_q_motion_finished_main →
      (scenario_plan Real.sqrt).t_f_sync i = (scenario_plan Real.sqrt).t_f_sync 3 :=
  synchronization (fun _ => 0) scenario_goal (scale 0.5 dq_max_init)
    (scale 0.5 ddq_max_start_init) (scale 0.5 ddq_max_goal_init) delta_q_motion_finished_main
    (fun _ => 0) threshold_main_pos (scaled_limits_pos 0.5 (by norm_num)) 3 scenario_moving

/-- C3. For a planner-computed plan with positive threshold and strictly
positive limits, sampling at `t = 0` gives `delta_q_d[j] = 0` for a joint `j`
with `|delta_q[j]| > threshold`, and `motion_finished_flag` is false as soon as
there is such a joint. -/
theorem start_of_trajectory (q_start q_goal dq_max ddq_max_start ddq_max_goal : Fin 7 → ℝ)
    (thr : ℝ) (dq_max_sync_0 : Fin 7 → ℝ) (hthr : 0 < thr)
    (hlim : ∀ j, 0 < dq_max j ∧ 0 < ddq_max_start j ∧ 0 < ddq_max_goal j) (j : Fin 7)
    (hj : |(plan_motion Real.sqrt q_start q_goal dq_max ddq_max_start ddq_max_goal thr
        dq_max_sync_0).delta_q j| > thr) :
    (sample (plan_motion Real.sqrt q_start q_goal dq_max ddq_max_start ddq_max_goal thr
      dq_max_sync_0) thr 0).1 j = 0 ∧
    (sample (plan_motion Real.sqrt q_start q_goal dq_max ddq_max_start ddq_max_goal thr
      dq_max_sync_0) thr 0).2 = false := by
  obtain ⟨_, _, _, hp⟩ := plan_moving_joint q_start q_goal dq_max ddq_max_start
    ddq_max_goal thr dq_max_sync_0 hthr hlim j hj
  have hbranch : desired_joint 0
      ((plan_motion Real.sqrt q_start q_goal dq_max ddq_max_start ddq_max_goal thr
        dq_max_sync_0).delta_q j)
      ((plan_motion Real.sqrt q_start q_goal dq_max ddq_max_start ddq_max_goal thr
        dq_max_sync_0).dq_max_sync j)
      ((plan_motion Real.sqrt q_start q_goal dq_max ddq_max_start ddq_max_goal thr
        dq_max_sync_0).t_1_sync j)
      ((plan_motion Real.sqrt q_start q_goal dq_max ddq_max_start ddq_max_goal thr
        dq_max_sync_0).t_2_sync j)
      ((plan_motion Real.sqrt q_start q_goal dq_max ddq_max_start ddq_max_goal thr
        dq_max_sync_0).t_f_sync j)
      ((plan_motion Real.sqrt q_start q_goal dq_max ddq_max_start ddq_max_goal thr
        dq_max_sync_0).q_1 j) thr = ⟨0, false⟩ := by
    simp only [desired_joint, hp.moving, if_false, hp.t_1_pos, if_true, accel_value]
    norm_num
  constructor
  · show (desired_joint _ _ _ _ _ _ _ _).delta_q_d = 0
    rw [hbranch]
  · rw [Bool.eq_false_iff]
    intro hflag
    have hall := (flag_eq_true_iff _ _ _ _ _ _ _ _).mp hflag j
    have hjf : (desired_joint 0 _ _ _ _ _ _ thr).joint_motion_finished = true := hall
    rw [hbranch] at hjf
    exact Bool.false_ne_true hjf

/-- Witness for `start_of_trajectory`: joint 3 of the single-joint run. -/
theorem start_of_trajectory_witness :
    (sample (scenario_plan Real.sqrt) delta_q_motion_finished_main 0).1 3 = 0 ∧
    (sample (scenario_plan Real.sqrt) delta_q_motion_finished_main 0).2 = false :=
  start_of_trajectory (fun _ => 0) scenario_goal (scale 0.5 dq_max_init)
    (scale 0.5 ddq_max_start_init) (scale 0.5 ddq_max_goal_init) delta_q_motion_finished_main
    (fun _ => 0) threshold_main_pos (scaled_limits_pos 0.5 (by norm_num)) 3 scenario_moving

/-! ## Monotonic displacement and continuity of planner-computed plans -/

/-- C4. For a planner-computed plan with positive threshold and strictly
positive limits, every joint `j` (moving or not) and all times `0 ≤ t1 < t2`:
`sgn(delta_q[j]) * delta_q_d[j](t1) ≤ sgn(delta_q[j]) * delta_q_d[j](t2)`. -/
theorem monotonic_displacement
    (q_start q_goal dq_max ddq_max_start ddq_max_goal : Fin 7 → ℝ)
    (thr : ℝ) (dq_max_sync_0 : Fin 7 → ℝ) (hthr : 0 < thr)
    (hlim : ∀ j, 0 < dq_max j ∧ 0 < ddq_max_start j ∧ 0 < ddq_max_goal j)
    (j : Fin 7) (t1 t2 : ℝ) (h1 : 0 ≤ t1) (h12 : t1 < t2) :
    ((sgn ((plan_motion Real.sqrt q_start q_goal dq_max ddq_max_start ddq_max_goal thr
        dq_max_sync_0).delta_q j) : Int) : ℝ) *
      (sample (plan_motion Real.sqrt q_start q_goal dq_max ddq_max_start ddq_max_goal thr
        dq_max_sync_0) thr t1).1 j ≤
    ((sgn ((plan_motion Real.sqrt q_start q_goal dq_max ddq_max_start ddq_max_goal thr
        dq_max_sync_0).delta_q j) : Int) : ℝ) *
      (sample (plan_motion Real.sqrt q_start q_goal dq_max ddq_max_start ddq_max_goal thr
        dq_max_sync_0) thr t2).1 j := by
  show _ * (desired_joint _ _ _ _ _ _ _ _).delta_q_d ≤
    _ * (desired_joint _ _ _ _ _ _ _ _).delta_q_d
  by_cases hstill : |(plan_motion Real.sqrt q_start q_goal dq_max ddq_max_start ddq_max_goal
      thr dq_max_sync_0).delta_q j| < thr
  · rw [value_still _ _ _ _ _ _ _ t1 hstill, value_still _ _ _ _ _ _ _ t2 hstill]
  · by_cases hmov : thr < |(plan_motion Real.sqrt q_start q_goal dq_max ddq_max_start
        ddq_max_goal thr dq_max_sync_0).delta_q j|
    · obtain ⟨_, _, _, hp⟩ := plan_moving_joint q_start q_goal dq_max ddq_max_start
        ddq_max_goal thr dq_max_sync_0 hthr hlim j hmov
      exact signed_mono hp t1 t2 h1 (le_of_lt h12)
    · obtain ⟨e1, e2, e3, _⟩ := plan_still_joint q_start q_goal dq_max ddq_max_start
        ddq_max_goal thr dq_max_sync_0 j hmov
      rw [e1, e2, e3, value_end _ _ _ _ _ _ _ t1 hstill le_rfl le_rfl h1,
        value_end _ _ _ _ _ _ _ t2 hstill le_rfl le_rfl (le_trans h1 (le_of_lt h12))]

/-- Witness for `monotonic_displacement`: joint 3 of the single-joint run between
`t = 0` and `t = 1`. -/
theorem monotonic_displacement_witness :
    (0 : ℝ) ≤ 0 ∧ (0 : ℝ) < 1 ∧
    ((sgn ((scenario_plan Real.sqrt).delta_q 3) : Int) : ℝ) *
      (sample (scenario_plan Real.sqrt) delta_q_motion_finished_main 0).1 3 ≤
    ((sgn ((scenario_plan Real.sqrt).delta_q 3) : Int) : ℝ) *
      (sample (scenario_plan Real.sqrt) delta_q_motion_finished_main 1).1 3 :=
  ⟨le_refl 0, zero_lt_one,
    monotonic_displacement (fun _ => 0) scenario_goal (scale 0.5 dq_max_init)
      (scale 0.5 ddq_max_start_init) (scale 0.5 ddq_max_goal_init)
      delta_q_motion_finished_main (fun _ => 0) threshold_main_pos
      (scaled_limits_pos 0.5 (by norm_num)) 3 0 1 (le_refl 0) zero_lt_one⟩

/-- C5. For a planner-computed plan with positive threshold and strictly
positive limits and a joint `j` with `|delta_q[j]| > threshold`, the sampled
displacement is continuous in `t` on `[0, ∞)`; the acceleration expression at
`t_1_sync[j]` equals `q_1[j]`, the constant-velocity expression at `t_2_sync[j]`
equals the deceleration expression there, and the deceleration expression at
`t_f_sync[j]` equals `delta_q[j]`. -/
theorem position_continuity
    (q_start q_goal dq_max ddq_max_start ddq_max_goal : Fin 7 → ℝ)
    (thr : ℝ) (dq_max_sync_0 : Fin 7 → ℝ) (hthr : 0 < thr)
    (hlim : ∀ j, 0 < dq_max j ∧ 0 < ddq_max_start j ∧ 0 < ddq_max_goal j) (j : Fin 7)
    (hj : |(plan_motion Real.sqrt q_start q_goal dq_max ddq_max_start ddq_max_goal thr
        dq_max_sync_0).delta_q j| > thr) :
    ContinuousOn
      (fun t => (sample (plan_motion Real.sqrt q_start q_goal dq_max ddq_max_start
        ddq_max_goal thr dq_max_sync_0) thr t).1 j) (Set.Ici 0) ∧
    accel_value
      ((plan_motion Real.sqrt q_start q_goal dq_max ddq_max_start ddq_max_goal thr
        dq_max_sync_0).t_1_sync j)
      ((plan_motion Real.sqrt q_start q_goal dq_max ddq_max_start ddq_max_goal thr
        dq_max_sync_0).dq_max_sync j)
      ((plan_motion Real.sqrt q_start q_goal dq_max ddq_max_start ddq_max_goal thr
        dq_max_sync_0).t_1_sync j)
      (sgn ((plan_motion Real.sqrt q_start q_goal dq_max ddq_max_start ddq_max_goal thr
        dq_max_sync_0).delta_q j)) =
      (plan_motion Real.sqrt q_start q_goal dq_max ddq_max_start ddq_max_goal thr
        dq_max_sync_0).q_1 j ∧
    const_value
      ((plan_motion Real.sqrt q_start q_goal dq_max ddq_max_start ddq_max_goal thr
        dq_max_sync_0).t_2_sync j)
      ((plan_motion Real.sqrt q_start q_goal dq_max ddq_max_start ddq_max_goal thr
        dq_max_sync_0).dq_max_sync j)
      ((plan_motion Real.sqrt q_start q_goal dq_max ddq_max_start ddq_max_goal thr
        dq_max_sync_0).t_1_sync j)
      ((plan_motion Real.sqrt q_start q_goal dq_max ddq_max_start ddq_max_goal thr
        dq_max_sync_0).q_1 j)
      (sgn ((plan_motion Real.sqrt q_start q_goal dq_max ddq_max_start ddq_max_goal thr
        dq_max_sync_0).delta_q j)) =
    decel_value
      ((plan_motion Real.sqrt q_start q_goal dq_max ddq_max_start ddq_max_goal thr
        dq_max_sync_0).t_2_sync j)
      ((plan_motion Real.sqrt q_start q_goal dq_max ddq_max_start ddq_max_goal thr
        dq_max_sync_0).delta_q j)
      ((plan_motion Real.sqrt q_start q_goal dq_max ddq_max_start ddq_max_goal thr
        dq_max_sync_0).dq_max_sync j)
      ((plan_motion Real.sqrt q_start q_goal dq_max ddq_max_start ddq_max_goal thr
        dq_max_sync_0).t_1_sync j)
      (sub (plan_motion Real.sqrt q_start q_goal dq_max ddq_max_start ddq_max_goal thr
          dq_max_sync_0).t_2_sync
        (plan_motion Real.sqrt q_start q_goal dq_max ddq_max_start ddq_max_goal thr
          dq_max_sync_0).t_1_sync j)
      (sub (plan_motion Real.sqrt q_start q_goal dq_max ddq_max_start ddq_max_goal thr
          dq_max_sync_0).t_f_sync
        (plan_motion Real.sqrt q_start q_goal dq_max ddq_max_start ddq_max_goal thr
          dq_max_sync_0).t_2_sync j)
      (sgn ((plan_motion Real.sqrt q_start q_goal dq_max ddq_max_start ddq_max_goal thr
        dq_max_sync_0).delta_q j)) ∧
    decel_value
      ((plan_motion Real.sqrt q_start q_goal dq_max ddq_max_start ddq_max_goal thr
        dq_max_sync_0).t_f_sync j)
      ((plan_motion Real.sqrt q_start q_goal dq_max ddq_max_start ddq_max_goal thr
        dq_max_sync_0).delta_q j)
      ((plan_motion Real.sqrt q_start q_goal dq_max ddq_max_start ddq_max_goal thr
        dq_max_sync_0).dq_max_sync j)
      ((plan_motion Real.sqrt q_start q_goal dq_max ddq_max_start ddq_max_goal thr
        dq_max_sync_0).t_1_sync j)
      (sub (plan_motion Real.sqrt q_start q_goal dq_max ddq_max_start ddq_max_goal thr
          dq_max_sync_0).t_2_sync
        (plan_motion Real.sqrt q_start q_goal dq_max ddq_max_start ddq_max_goal thr
          dq_max_sync_0).t_1_sync j)
      (sub (plan_motion Real.sqrt q_start q_goal dq_max ddq_max_start ddq_max_goal thr
          dq_max_sync_0).t_f_sync
        (plan_motion Real.sqrt q_start q_goal dq_max ddq_max_start ddq_max_goal thr
          dq_max_sync_0).t_2_sync j)
      (sgn ((plan_motion Real.sqrt q_start q_goal dq_max ddq_max_start ddq_max_goal thr
        dq_max_sync_0).delta_q j)) =
      (plan_motion Real.sqrt q_start q_goal dq_max ddq_max_start ddq_max_goal thr
        dq_max_sync_0).delta_q j := by
  obtain ⟨_, _, _, hp⟩ := plan_moving_joint q_start q_goal dq_max ddq_max_start
    ddq_max_goal thr dq_max_sync_0 hthr hlim j hj
  exact ⟨(profile_continuous hp).continuousOn, accel_at_t_1 hp, const_at_t_2 hp,
    decel_at_t_f hp⟩

/-- Witness for `position_continuity`: joint 3 of the single-joint run. -/
theorem position_continuity_witness :
    ContinuousOn
      (fun t => (sample (scenario_plan Real.sqrt) delta_q_motion_finished_main t).1 3)
      (Set.Ici 0) ∧
    accel_value ((scenario_plan Real.sqrt).t_1_sync 3) ((scenario_plan Real.sqrt).dq_max_sync 3)
      ((scenario_plan Real.sqrt).t_1_sync 3) (sgn ((scenario_plan Real.sqrt).delta_q 3)) =
      (scenario_plan Real.sqrt).q_1 3 ∧
    const_value ((scenario_plan Real.sqrt).t_2_sync 3) ((scenario_plan Real.sqrt).dq_max_sync 3)
      ((scenario_plan Real.sqrt).t_1_sync 3) ((scenario_plan Real.sqrt).q_1 3)
      (sgn ((scenario_plan Real.sqrt).delta_q 3)) =
    decel_value ((scenario_plan Real.sqrt).t_2_sync 3) ((scenario_plan Real.sqrt).delta_q 3)
      ((scenario_plan Real.sqrt).dq_max_sync 3) ((scenario_plan Real.sqrt).t_1_sync 3)
      (sub (scenario_plan Real.sqrt).t_2_sync (scenario_plan Real.sqrt).t_1_sync 3)
      (sub (scenario_plan Real.sqrt).t_f_sync (scenario_plan Real.sqrt).t_2_sync 3)
      (sgn ((scenario_plan Real.sqrt).delta_q 3)) ∧
    decel_value ((scenario_plan Real.sqrt).t_f_sync 3) ((scenario_plan Real.sqrt).delta_q 3)
      ((scenario_plan Real.sqrt).dq_max_sync 3) ((scenario_plan Real.sqrt).t_1_sync 3)
      (sub (scenario_plan Real.sqrt).t_2_sync (scenario_plan Real.sqrt).t_1_sync 3)
      (sub (scenario_plan Real.sqrt).t_f_sync (scenario_plan Real.sqrt).t_2_sync 3)
      (sgn ((scenario_plan Real.sqrt).delta_q 3)) =
      (scenario_plan Real.sqrt).delta_q 3 :=
  position_continuity (fun _ => 0) scenario_goal (scale 0.5 dq_max_init)
    (scale 0.5 ddq_max_start_init) (scale 0.5 ddq_max_goal_init) delta_q_motion_finished_main
    (fun _ => 0) threshold_main_pos (scaled_limits_pos 0.5 (by norm_num)) 3 scenario_moving

/-! ## Reachable velocity, discriminant, completed motions, joints at rest, limits -/

/-- C6 (the code at the failing input). A joint with `delta_q = 0.2`,
`dq_max = 2`, `ddq_max_start = ddq_max_goal = 5` and threshold `0.000001` is a
moving joint whose `|delta_q|` is below `0.75*dq_max^2/ddq_max_start +
0.75*dq_max^2/ddq_max_goal`; the first planning loop leaves
`dq_max_reach = dq_max = 2`, which is not the reduced velocity
`sqrt((4/3) * |delta_q| * ddq_max_start * ddq_max_goal / (ddq_max_start + ddq_max_goal))`. -/
theorem reachable_velocity_truncated :
    |(0.2 : ℝ)| > 0.000001 ∧
    |(0.2 : ℝ)| < 0.75 * 2 ^ 2 / 5 + 0.75 * 2 ^ 2 / 5 ∧
    (unsync_joint Real.sqrt 0.2 2 5 5 0.000001).dq_max_reach = 2 ∧
    (unsync_joint Real.sqrt 0.2 2 5 5 0.000001).dq_max_reach ≠
      Real.sqrt (4 / 3 * |(0.2 : ℝ)| * 5 * 5 / (5 + 5)) := by
  have habs : |(0.2 : ℝ)| = 0.2 := abs_of_pos (by norm_num)
  have hmov : (0.000001 : ℝ) < |(0.2 : ℝ)| := by rw [habs]; norm_num
  have hval : (unsync_joint Real.sqrt 0.2 2 5 5 0.000001).dq_max_reach = 2 := by
    rw [unsync_joint_moving Real.sqrt 0.2 2 5 5 0.000001 hmov]
  refine ⟨hmov, ?_, hval, ?_⟩
  · rw [habs]; norm_num
  · rw [hval, habs]
    intro h
    have hsq : Real.sqrt (4 / 3 * 0.2 * 5 * 5 / (5 + 5)) ^ 2 = 4 / 3 * 0.2 * 5 * 5 / (5 + 5) :=
      Real.sq_sqrt (by norm_num)
    rw [← h] at hsq
    norm_num at hsq

/-- C7. For a planner-computed plan with positive threshold and strictly
positive limits and a joint `j` with `|delta_q[j]| > threshold`, the
discriminant `delta = b*b - 4*a*c` of the synchronization pass is non-negative,
and `max_t_f` is at least the unsynchronized `t_f[j]`. -/
theorem discriminant_nonneg
    (q_start q_goal dq_max ddq_max_start ddq_max_goal : Fin 7 → ℝ)
    (thr : ℝ) (dq_max_sync_0 : Fin 7 → ℝ) (hthr : 0 < thr)
    (hlim : ∀ j, 0 < dq_max j ∧ 0 < ddq_max_start j ∧ 0 < ddq_max_goal j) (j : Fin 7)
    (hj : |(plan_motion Real.sqrt q_start q_goal dq_max ddq_max_start ddq_max_goal thr
        dq_max_sync_0).delta_q j| > thr) :
    0 ≤ sync_delta
      ((plan_motion Real.sqrt q_start q_goal dq_max ddq_max_start ddq_max_goal thr
        dq_max_sync_0).delta_q j) (ddq_max_start j) (ddq_max_goal j)
      (max_vector (plan_motion Real.sqrt q_start q_goal dq_max ddq_max_start ddq_max_goal thr
        dq_max_sync_0).t_f) ∧
    (plan_motion Real.sqrt q_start q_goal dq_max ddq_max_start ddq_max_goal thr
        dq_max_sync_0).t_f j ≤
      max_vector (plan_motion Real.sqrt q_start q_goal dq_max ddq_max_start ddq_max_goal thr
        dq_max_sync_0).t_f := by
  obtain ⟨h1, h2, _, _⟩ := plan_moving_joint q_start q_goal dq_max ddq_max_start
    ddq_max_goal thr dq_max_sync_0 hthr hlim j hj
  exact ⟨h2, h1⟩

/-- Witness for `discriminant_nonneg`: joint 3 of the single-joint run. -/
theorem discriminant_nonneg_witness :
    0 ≤ sync_delta ((scenario_plan Real.sqrt).delta_q 3)
      (scale 0.5 (ddq_max_start_init : Fin 7 → ℝ) 3) (scale 0.5 (ddq_max_goal_init : Fin 7 → ℝ) 3)
      (max_vector (scenario_plan Real.sqrt).t_f) ∧
    (scenario_plan Real.sqrt).t_f 3 ≤ max_vector (scenario_plan Real.sqrt).t_f :=
  discriminant_nonneg (fun _ => 0) scenario_goal (scale 0.5 dq_max_init)
    (scale 0.5 ddq_max_start_init) (scale 0.5 ddq_max_goal_init) delta_q_motion_finished_main
    (fun _ => 0) threshold_main_pos (scaled_limits_pos 0.5 (by norm_num)) 3 scenario_moving

section AnyField

variable {K : Type} [LinearOrderedField K]

/-- C8. For every plan (arbitrary arrays), every `delta_q`, every threshold and
all times `t ≤ t'`: if `calculation_of_desired_values` sets
`motion_finished_flag` at time `t`, it also sets it at time `t'` and writes the
same `delta_q_d` in every joint. -/
theorem completed_motion_idempotent (t t' : K) (delta_q dq_max t_1 t_2 t_f q_1 : Fin 7 → K)
    (thr : K) (htt : t ≤ t')
    (hfin : (calculation_of_desired_values t delta_q dq_max t_1 t_2 t_f q_1 thr).2 = true) :
    (calculation_of_desired_values t' delta_q dq_max t_1 t_2 t_f q_1 thr).2 = true ∧
    ∀ j, (calculation_of_desired_values t' delta_q dq_max t_1 t_2 t_f q_1 thr).1 j =
      (calculation_of_desired_values t delta_q dq_max t_1 t_2 t_f q_1 thr).1 j := by
  have hall := (flag_eq_true_iff t delta_q dq_max t_1 t_2 t_f q_1 thr).mp hfin
  have hjoint : ∀ j, desired_joint t' (delta_q j) (dq_max j) (t_1 j) (t_2 j) (t_f j) (q_1 j) thr =
      desired_joint t (delta_q j) (dq_max j) (t_1 j) (t_2 j) (t_f j) (q_1 j) thr := by
    intro j
    have hc := (desired_joint_finished_iff t (delta_q j) (dq_max j) (t_1 j) (t_2 j) (t_f j)
      (q_1 j) thr).mp (hall j)
    have hc' : |delta_q j| < thr ∨ (¬ t' < t_1 j ∧ ¬ t' < t_2 j ∧ ¬ t' < t_f j) := by
      rcases hc with h | ⟨h1, h2, h3⟩
      · exact Or.inl h
      · exact Or.inr ⟨not_lt.mpr (le_trans (not_lt.mp h1) htt),
          not_lt.mpr (le_trans (not_lt.mp h2) htt), not_lt.mpr (le_trans (not_lt.mp h3) htt)⟩
    rw [desired_joint_of_finished _ _ _ _ _ _ _ _ hc, desired_joint_of_finished _ _ _ _ _ _ _ _ hc']
  constructor
  · rw [flag_eq_true_iff]
    intro j
    show (desired_joint _ _ _ _ _ _ _ _).joint_motion_finished = true
    rw [hjoint j]
    exact hall j
  · intro j
    show (desired_joint _ _ _ _ _ _ _ _).delta_q_d = (desired_joint _ _ _ _ _ _ _ _).delta_q_d
    rw [hjoint j]

/-- C9. For every positive threshold, every time `t` and every plan: a joint
with `|delta_q[j]| < threshold` gets `delta_q_d[j] = 0` and counts as finished;
and when `q_start` and `q_goal` are the same array, the sampler applied to
`delta_q = q_goal - q_start` returns the all-zero displacement and
`motion_finished_flag = true`. -/
theorem not_moving_joints (thr : K) (hthr : 0 < thr) (t : K)
    (dq_max t_1 t_2 t_f q_1 : Fin 7 → K) :
    (∀ (delta_q : Fin 7 → K) (j : Fin 7), |delta_q j| < thr →
      (calculation_of_desired_values t delta_q dq_max t_1 t_2 t_f q_1 thr).1 j = 0 ∧
      joint_motion_finished t delta_q dq_max t_1 t_2 t_f q_1 thr j = true) ∧
    (∀ q : Fin 7 → K,
      (calculation_of_desired_values t (sub q q) dq_max t_1 t_2 t_f q_1 thr).1 = (fun _ => 0) ∧
      (calculation_of_desired_values t (sub q q) dq_max t_1 t_2 t_f q_1 thr).2 = true) := by
  have hjoint : ∀ (delta_q : Fin 7 → K) (j : Fin 7), |delta_q j| < thr →
      desired_joint t (delta_q j) (dq_max j) (t_1 j) (t_2 j) (t_f j) (q_1 j) thr =
        ⟨0, true⟩ := by
    intro delta_q j hj
    rw [desired_joint_of_finished _ _ _ _ _ _ _ _ (Or.inl hj), if_pos hj]
  have hzero : ∀ (q : Fin 7 → K) (j : Fin 7), |sub q q j| < thr := by
    intro q j
    simp only [sub, sub_self, abs_zero]
    exact hthr
  refine ⟨fun delta_q j hj => ?_, fun q => ⟨?_, ?_⟩⟩
  · show (desired_joint _ _ _ _ _ _ _ _).delta_q_d = 0 ∧
      (desired_joint _ _ _ _ _ _ _ _).joint_motion_finished = true
    rw [hjoint delta_q j hj]
    exact ⟨rfl, rfl⟩
  · funext j
    show (desired_joint _ _ _ _ _ _ _ _).delta_q_d = 0
    rw [hjoint (sub q q) j (hzero q j)]
  · rw [flag_eq_true_iff]
    intro j
    show (desired_joint _ _ _ _ _ _ _ _).joint_motion_finished = true
    rw [hjoint (sub q q) j (hzero q j)]

end AnyField

/-- Witness for `completed_motion_idempotent`: every joint has `delta_q = 1`
and breakpoints `1, 2, 3`; the motion is finished at `t = 3`, hence at `t = 4`. -/
theorem completed_motion_idempotent_witness :
    (calculation_of_desired_values (3 : ℚ) (fun _ => 1) (fun _ => 1) (fun _ => 1) (fun _ => 2)
      (fun _ => 3) (fun _ => 1 / 2) (1 / 2)).2 = true ∧
    (calculation_of_desired_values (4 : ℚ) (fun _ => 1) (fun _ => 1) (fun _ => 1) (fun _ => 2)
      (fun _ => 3) (fun _ => 1 / 2) (1 / 2)).2 = true ∧
    ∀ j, (calculation_of_desired_values (4 : ℚ) (fun _ => 1) (fun _ => 1) (fun _ => 1)
        (fun _ => 2) (fun _ => 3) (fun _ => 1 / 2) (1 / 2)).1 j =
      (calculation_of_desired_values (3 : ℚ) (fun _ => 1) (fun _ => 1) (fun _ => 1)
        (fun _ => 2) (fun _ => 3) (fun _ => 1 / 2) (1 / 2)).1 j :=
  have h3 : (calculation_of_desired_values (3 : ℚ) (fun _ => 1) (fun _ => 1) (fun _ => 1)
      (fun _ => 2) (fun _ => 3) (fun _ => 1 / 2) (1 / 2)).2 = true := by
    rw [flag_eq_true_iff]
    intro j
    exact (desired_joint_finished_iff _ _ _ _ _ _ _ _).mpr (Or.inr (by norm_num))
  ⟨h3, completed_motion_idempotent 3 4 (fun _ => 1) (fun _ => 1) (fun _ => 1) (fun _ => 2)
    (fun _ => 3) (fun _ => 1 / 2) (1 / 2) (by norm_num) h3⟩

/-- Witness for `not_moving_joints`: the threshold of `main`, `t = 1`, and a plan
whose arrays are all zero. -/
theorem not_moving_joints_witness :
    (0 : ℝ) < delta_q_motion_finished_main ∧
    (∀ (delta_q : Fin 7 → ℝ) (j : Fin 7), |delta_q j| < delta_q_motion_finished_main →
      (calculation_of_desired_values 1 delta_q (fun _ => 0) (fun _ => 0) (fun _ => 0)
        (fun _ => 0) (fun _ => 0) delta_q_motion_finished_main).1 j = 0 ∧
      joint_motion_finished 1 delta_q (fun _ => 0) (fun _ => 0) (fun _ => 0)
        (fun _ => 0) (fun _ => 0) delta_q_motion_finished_main j = true) ∧
    (∀ q : Fin 7 → ℝ,
      (calculation_of_desired_values 1 (sub q q) (fun _ => 0) (fun _ => 0) (fun _ => 0)
        (fun _ => 0) (fun _ => 0) delta_q_motion_finished_main).1 = (fun _ => 0) ∧
      (calculation_of_desired_values 1 (sub q q) (fun _ => 0) (fun _ => 0) (fun _ => 0)
        (fun _ => 0) (fun _ => 0) delta_q_motion_finished_main).2 = true) :=
  ⟨threshold_main_pos,
    not_moving_joints delta_q_motion_finished_main threshold_main_pos 1 (fun _ => 0)
      (fun _ => 0) (fun _ => 0) (fun _ => 0) (fun _ => 0)⟩

/-- C10 (as stated, refuted). With speed factor `0`, the all-zero start and the
goal `scenario_goal`, joint 3 is to move and its scaled `dq_max` is `0`, yet the
planning code ends with a plan, not with `InvalidLimitsError`. -/
theorem planning_accepts_zero_speed_factor :
    |sub (scenario_goal : Fin 7 → ℝ) (fun _ => 0) 3| > delta_q_motion_finished_main ∧
    scale (0 : ℝ) dq_max_init 3 ≤ 0 ∧
    planning_outcome Real.sqrt 0 (fun _ => 0) scenario_goal (fun _ => 0) ≠
      Except.error PlanFailure.InvalidLimitsError ∧
    ∃ p, planning_outcome Real.sqrt 0 (fun _ => 0) scenario_goal (fun _ => 0) = Except.ok p := by
  refine ⟨scenario_moving, ?_, ?_, ⟨_, rfl⟩⟩
  · simp [scale]
  · intro h
    cases h

/-- C10 (amended). The planning code validates no limit and never fails: for
every speed factor (positive or not), every start/goal pair and every initial
content of `dq_max_sync`, it ends with the plan `plan_motion` computes from the
scaled limits. -/
theorem planning_never_fails (speed_factor : ℝ) (q_start q_goal dq_max_sync_0 : Fin 7 → ℝ) :
    planning_outcome Real.sqrt speed_factor q_start q_goal dq_max_sync_0 =
      Except.ok (plan_motion Real.sqrt q_start q_goal (scale speed_factor dq_max_init)
        (scale speed_factor ddq_max_start_init) (scale speed_factor ddq_max_goal_init)
        delta_q_motion_finished_main dq_max_sync_0) ∧
    planning_outcome Real.sqrt speed_factor q_start q_goal dq_max_sync_0 ≠
      Except.error PlanFailure.InvalidLimitsError := by
  refine ⟨rfl, ?_⟩
  intro h
  cases h

/-! ## More on `max_vector` and on the synchronization quadratic -/

section MaxVector

variable {K : Type} [LinearOrderedField K]

theorem foldl_max_le (a : Fin 7 → K) (M : K) (h : ∀ j, a j ≤ M) (l : List (Fin 7)) (out : K)
    (hout : out ≤ M) : l.foldl (fun out i => if a i > out then a i else out) out ≤ M := by
  induction l generalizing out with
  | nil => simpa using hout
  | cons i l ih =>
    simp only [List.foldl_cons]
    split_ifs
    · exact ih _ (h i)
    · exact ih _ hout

/-- The value `max_vector` returns is below every bound of the entries. -/
theorem max_vector_le (a : Fin 7 → K) (M : K) (h : ∀ j, a j ≤ M) : max_vector a ≤ M :=
  foldl_max_le a M h _ _ (h 0)

/-- The value `max_vector` returns grows with the entries. -/
theorem max_vector_mono (a b : Fin 7 → K) (h : ∀ j, a j ≤ b j) : max_vector a ≤ max_vector b :=
  max_vector_le a _ (fun j => le_trans (h j) (max_vector_ge b j))

end MaxVector

/-- The value line 188 stores for a moving joint. -/
theorem sync_joint_dq_max_sync (d s g thr T v0 : ℝ) (hd : thr < |d|) :
    (sync_joint Real.sqrt d s g thr T v0).dq_max_sync =
      (-sync_b s g T - Real.sqrt (sync_delta d s g T)) / (2 * sync_a s g) := by
  unfold sync_joint
  simp only [gt_iff_lt, hd, if_true]
  norm_num

/-- The smaller root of a quadratic with `a > 0` lies below every point where
the quadratic is not positive. -/
theorem small_root_le (a b c r x : ℝ) (ha : 0 < a) (hr0 : 0 ≤ r)
    (hr : r * r = b * b - 4 * a * c) (hx : a * x ^ 2 + b * x + c ≤ 0) :
    (-b - r) / (2 * a) ≤ x := by
  rw [div_le_iff₀ (by linarith)]
  by_contra hcon
  push_neg at hcon
  have h1 : 0 < -b - r - x * (2 * a) := by linarith
  have h2 : 0 < -b + r - x * (2 * a) := by linarith
  have h3 := mul_pos h1 h2
  have key : (-b - r - x * (2 * a)) * (-b + r - x * (2 * a)) =
      4 * a * (a * x ^ 2 + b * x + c) + (b * b - 4 * a * c - r * r) := by ring
  rw [key, hr] at h3
  nlinarith

/-- For a moving joint with positive limits and `max_t_f` at least its own
unsynchronized duration: `dq_max_sync` is positive, a root of the
synchronization quadratic, and at most `dq_max`. -/
theorem sync_joint_root (sqrt : ℝ → ℝ) (d v s g thr T v0 : ℝ) (hthr : 0 < thr)
    (hd : thr < |d|) (hv : 0 < v) (hs : 0 < s) (hg : 0 < g)
    (hT : (unsync_joint sqrt d v s g thr).t_f ≤ T) :
    0 < (sync_joint Real.sqrt d s g thr T v0).dq_max_sync ∧
    sync_a s g * (sync_joint Real.sqrt d s g thr T v0).dq_max_sync ^ 2 +
      sync_b s g T * (sync_joint Real.sqrt d s g thr T v0).dq_max_sync + sync_c d s g = 0 ∧
    (sync_joint Real.sqrt d s g thr T v0).dq_max_sync ≤ v := by
  have hD : 0 < |d| := lt_trans hthr hd
  have hTpos : 0 < T := lt_of_lt_of_le (unsync_t_f_pos sqrt d v s g thr hthr hd hv hs hg) hT
  have hdelta := sync_delta_nonneg_of_le sqrt d v s g thr T hthr hd hv hs hg hT
  have ha : 0 < sync_a s g := by unfold sync_a; positivity
  have hb : sync_b s g T < 0 := by
    unfold sync_b
    have : 0 < T * g * s := by positivity
    linarith
  have hc : 0 < sync_c d s g := by unfold sync_c; positivity
  have hr0 : 0 ≤ Real.sqrt (sync_delta d s g T) := Real.sqrt_nonneg _
  have hr : Real.sqrt (sync_delta d s g T) * Real.sqrt (sync_delta d s g T) =
      sync_b s g T * sync_b s g T - 4 * sync_a s g * sync_c d s g := by
    rw [Real.mul_self_sqrt hdelta]
    unfold sync_delta
    norm_num
  obtain ⟨hpos, hroot, _⟩ := small_root_facts _ _ _ _ ha hb hc hr0 hr
  rw [sync_joint_dq_max_sync d s g thr T v0 hd]
  refine ⟨hpos, hroot, small_root_le _ _ _ _ v ha hr0 hr ?_⟩
  rw [unsync_joint_moving sqrt d v s g thr hd] at hT
  have hT2 : 1.5 * v / s / 2 + 1.5 * v / g / 2 + |d| / v ≤ T := hT
  have hgs : 0 < g * s := mul_pos hg hs
  have e : (1.5 * v / s / 2 + 1.5 * v / g / 2 + |d| / v) * (v * (g * s)) =
      3 / 4 * (g + s) * v ^ 2 + |d| * g * s := by
    field_simp
    ring
  have hmul := mul_le_mul_of_nonneg_right hT2 (le_of_lt (mul_pos hv hgs))
  rw [e] at hmul
  unfold sync_a sync_b sync_c
  norm_num
  nlinarith

/-! ## The single-joint run, evaluated -/

/-- Displacements of the single-joint run. -/
theorem scenario_delta_q :
    (scenario_plan Real.sqrt).delta_q = (![0, 0, 0, 0.2, 0, 0, 0] : Fin 7 → ℝ) := by
  funext j
  simp [scenario_plan, plan_motion, sub, scenario_goal]

/-- Joints other than joint 3 are below the threshold in the single-joint run. -/
theorem scenario_still (j : Fin 7) (hj : j ≠ 3) :
    |(scenario_plan Real.sqrt).delta_q j| < (delta_q_motion_finished_main : ℝ) := by
  have h0 : (scenario_plan Real.sqrt).delta_q j = 0 := by
    rw [scenario_delta_q]
    fin_cases j <;> first | rfl | exact absurd rfl hj
  rw [h0, abs_zero]
  exact threshold_main_pos

/-- Scaled limits of joint 3 in the single-joint run. -/
theorem scenario_limits :
    scale (0.5 : ℝ) dq_max_init 3 = 1 ∧ scale (0.5 : ℝ) ddq_max_start_init 3 = 2.5 ∧
      scale (0.5 : ℝ) ddq_max_goal_init 3 = 2.5 := by
  refine ⟨?_, ?_, ?_⟩
  · show (0.5 : ℝ) * 2.0 = 1
    norm_num
  · show (0.5 : ℝ) * 5 = 2.5
    norm_num
  · show (0.5 : ℝ) * 5 = 2.5
    norm_num

/-- Unsynchronized durations of the single-joint run: `0.8` for joint 3 and
`0` for the others. -/
theorem scenario_t_f (j : Fin 7) :
    (scenario_plan Real.sqrt).t_f j = if j = 3 then 0.8 else 0 := by
  by_cases hj : j = 3
  · subst hj
    rw [if_pos rfl]
    show (unsync_joint Real.sqrt ((scenario_plan Real.sqrt).delta_q 3)
      (scale (0.5 : ℝ) dq_max_init 3) (scale (0.5 : ℝ) ddq_max_start_init 3)
      (scale (0.5 : ℝ) ddq_max_goal_init 3) delta_q_motion_finished_main).t_f = 0.8
    rw [unsync_joint_moving _ _ _ _ _ _ scenario_moving, scenario_limits.1, scenario_limits.2.1,
      scenario_limits.2.2]
    have e : (scenario_plan Real.sqrt).delta_q 3 = 0.2 := by rw [scenario_delta_q]; rfl
    rw [e, abs_of_pos (by norm_num)]
    norm_num
  · rw [if_neg hj]
    show (unsync_joint Real.sqrt ((scenario_plan Real.sqrt).delta_q j) _ _ _
      delta_q_motion_finished_main).t_f = 0
    rw [unsync_joint_still _ _ _ _ _ _ (not_lt.mpr (le_of_lt (scenario_still j hj)))]
    norm_num

/-- Duration of the single-joint run. -/
theorem scenario_max_t_f : (scenario_plan Real.sqrt).max_t_f = 0.8 := by
  show max_vector (scenario_plan Real.sqrt).t_f = 0.8
  apply le_antisymm
  · apply max_vector_le
    intro j
    rw [scenario_t_f]
    split_ifs <;> norm_num
  · have h := max_vector_ge (scenario_plan Real.sqrt).t_f 3
    rw [scenario_t_f, if_pos rfl] at h
    exact h

/-- Synchronized constants of joint 3 in the single-joint run. -/
theorem scenario_sync :
    (scenario_plan Real.sqrt).dq_max_sync 3 = 1 / 3 ∧
    (scenario_plan Real.sqrt).t_1_sync 3 = 0.2 ∧
    (scenario_plan Real.sqrt).t_2_sync 3 = 0.6 ∧
    (scenario_plan Real.sqrt).t_f_sync 3 = 0.8 := by
  have e : (scenario_plan Real.sqrt).delta_q 3 = 0.2 := by rw [scenario_delta_q]; rfl
  have hsq : Real.sqrt (sync_delta (0.2 : ℝ) 2.5 2.5 0.8) = 2.5 := by
    have h1 : sync_delta (0.2 : ℝ) 2.5 2.5 0.8 = 2.5 ^ 2 := by
      unfold sync_delta sync_a sync_b sync_c
      rw [abs_of_pos (by norm_num)]
      norm_num
    rw [h1]
    exact Real.sqrt_sq (by norm_num)
  have hmov : (delta_q_motion_finished_main : ℝ) < |(0.2 : ℝ)| := by
    have := scenario_moving
    rw [e] at this
    exact this
  have hS : sync_joint Real.sqrt (0.2 : ℝ) 2.5 2.5 delta_q_motion_finished_main 0.8 0 =
      ⟨1 / 3, 0.2, 0.6, 0.2, 0.8, 1 / 3 * ((sgn (0.2 : ℝ) : Int) : ℝ) * (0.5 * 0.2)⟩ := by
    unfold sync_joint
    simp only [gt_iff_lt, hmov, if_true, hsq]
    unfold sync_a sync_b
    have habs : |(0.2 : ℝ) / ((((-1 : Int) : ℝ) * (-1.0 * 0.8 * 2.5 * 2.5) - 2.5) /
        (2.0 * (1.5 / 2.0 * (2.5 + 2.5))))| = 0.6 := by
      rw [abs_of_pos (by norm_num)]
      norm_num
    rw [habs]
    norm_num
  have hP : ∀ f : Sync ℝ → ℝ,
      f (sync_joint Real.sqrt ((scenario_plan Real.sqrt).delta_q 3)
        (scale (0.5 : ℝ) ddq_max_start_init 3) (scale (0.5 : ℝ) ddq_max_goal_init 3)
        delta_q_motion_finished_main (scenario_plan Real.sqrt).max_t_f 0) =
      f ⟨1 / 3, 0.2, 0.6, 0.2, 0.8, 1 / 3 * ((sgn (0.2 : ℝ) : Int) : ℝ) * (0.5 * 0.2)⟩ := by
    intro f
    rw [e, scenario_limits.2.1, scenario_limits.2.2, scenario_max_t_f, hS]
  exact ⟨hP Sync.dq_max_sync, hP Sync.t_1_sync, hP Sync.t_2_sync, hP Sync.t_f_sync⟩

/-! ## The single-joint scenario and the synchronized peak velocity -/

/-- C11. Single-joint scenario (all-zero start, goal differing only in array index
3 by `0.2`, speed factor `0.5`, threshold `0.000001`): at `t = 0` every other joint
is finished with displacement 0; joint 3 has `t_1_sync = 0.2`, `t_2_sync = 0.6`,
`t_f_sync = 0.8`, so `0 < t_1_sync < t_2_sync < t_f_sync` and the branch taken is
acceleration before `t_1_sync`, constant velocity before `t_2_sync`,
deceleration before `t_f_sync`, end of trajectory from `t_f_sync` on; at
`t = t_f_sync` its displacement is `0.2` and `motion_finished_flag` is true. -/
theorem single_joint_scenario :
    (∀ j, j ≠ 3 →
      (sample (scenario_plan Real.sqrt) delta_q_motion_finished_main 0).1 j = 0 ∧
      sample_finished (scenario_plan Real.sqrt) delta_q_motion_finished_main 0 j = true) ∧
    ((scenario_plan Real.sqrt).t_1_sync 3 = 0.2 ∧ (scenario_plan Real.sqrt).t_2_sync 3 = 0.6 ∧
      (scenario_plan Real.sqrt).t_f_sync 3 = 0.8) ∧
    (0 < (scenario_plan Real.sqrt).t_1_sync 3 ∧
      (scenario_plan Real.sqrt).t_1_sync 3 < (scenario_plan Real.sqrt).t_2_sync 3 ∧
      (scenario_plan Real.sqrt).t_2_sync 3 < (scenario_plan Real.sqrt).t_f_sync 3) ∧
    (∀ t : ℝ, joint_phase t ((scenario_plan Real.sqrt).delta_q 3)
        ((scenario_plan Real.sqrt).t_1_sync 3) ((scenario_plan Real.sqrt).t_2_sync 3)
        ((scenario_plan Real.sqrt).t_f_sync 3) delta_q_motion_finished_main =
      if t < 0.2 then 1 else if t < 0.6 then 2 else if t < 0.8 then 3 else 4) ∧
    (sample (scenario_plan Real.sqrt) delta_q_motion_finished_main
      ((scenario_plan Real.sqrt).t_f_sync 3)).1 3 = 0.2 ∧
    (sample (scenario_plan Real.sqrt) delta_q_motion_finished_main
      ((scenario_plan Real.sqrt).t_f_sync 3)).2 = true := by
  obtain ⟨_, h1, h2, h3⟩ := scenario_sync
  have e : (scenario_plan Real.sqrt).delta_q 3 = 0.2 := by rw [scenario_delta_q]; rfl
  have hmov : ¬ |(scenario_plan Real.sqrt).delta_q 3| < (delta_q_motion_finished_main : ℝ) :=
    not_lt.mpr (le_of_lt scenario_moving)
  have hstill : ∀ (t : ℝ) (j : Fin 7), j ≠ 3 →
      desired_joint t ((scenario_plan Real.sqrt).delta_q j)
        ((scenario_plan Real.sqrt).dq_max_sync j) ((scenario_plan Real.sqrt).t_1_sync j)
        ((scenario_plan Real.sqrt).t_2_sync j) ((scenario_plan Real.sqrt).t_f_sync j)
        ((scenario_plan Real.sqrt).q_1 j) delta_q_motion_finished_main = ⟨0, true⟩ :=
    fun t j hj => value_still _ _ _ _ _ _ _ t (scenario_still j hj)
  have hend : desired_joint ((scenario_plan Real.sqrt).t_f_sync 3)
        ((scenario_plan Real.sqrt).delta_q 3)
        ((scenario_plan Real.sqrt).dq_max_sync 3) ((scenario_plan Real.sqrt).t_1_sync 3)
        ((scenario_plan Real.sqrt).t_2_sync 3) ((scenario_plan Real.sqrt).t_f_sync 3)
        ((scenario_plan Real.sqrt).q_1 3) delta_q_motion_finished_main =
        ⟨(scenario_plan Real.sqrt).delta_q 3, true⟩ := by
    apply value_end _ _ _ _ _ _ _ _ hmov
    · rw [h1, h2]; norm_num
    · rw [h2, h3]; norm_num
    · exact le_refl _
  refine ⟨fun j hj => ?_, ⟨h1, h2, h3⟩, ?_, fun t => ?_, ?_, ?_⟩
  · show (desired_joint _ _ _ _ _ _ _ _).delta_q_d = 0 ∧
      (desired_joint _ _ _ _ _ _ _ _).joint_motion_finished = true
    rw [hstill 0 j hj]
    exact ⟨rfl, rfl⟩
  · rw [h1, h2, h3]
    norm_num
  · rw [h1, h2, h3]
    unfold joint_phase
    rw [if_neg hmov]
    by_cases c1 : t < 0.2
    · simp only [c1, if_true]
    · by_cases c2 : t < 0.6
      · simp only [c1, c2, if_false, if_true, ge_iff_le, not_lt.mp c1, and_self]
      · by_cases c3 : t < 0.8
        · simp only [c1, c2, c3, if_false, if_true, ge_iff_le, not_lt.mp c2, and_self,
            and_false]
        · simp only [c1, c2, c3, if_false, and_false]
  · show (desired_joint _ _ _ _ _ _ _ _).delta_q_d = 0.2
    rw [hend, e]
  · rw [sample, flag_eq_true_iff]
    intro j
    show (desired_joint _ _ _ _ _ _ _ _).joint_motion_finished = true
    by_cases hj : j = 3
    · subst hj
      rw [hend]
    · rw [hstill _ j hj]

/-- C12. For a planner-computed plan with positive threshold and strictly
positive limits and a joint `j` with `|delta_q[j]| > threshold`: `dq_max_sync[j]`
is strictly positive and satisfies `a*v^2 + b*v + c = 0` with
`a = 0.75*(ddq_max_start + ddq_max_goal)`,
`b = -max_t_f*ddq_max_start*ddq_max_goal`,
`c = |delta_q|*ddq_max_start*ddq_max_goal`. -/
theorem synchronized_peak_velocity
    (q_start q_goal dq_max ddq_max_start ddq_max_goal : Fin 7 → ℝ)
    (thr : ℝ) (dq_max_sync_0 : Fin 7 → ℝ) (hthr : 0 < thr)
    (hlim : ∀ j, 0 < dq_max j ∧ 0 < ddq_max_start j ∧ 0 < ddq_max_goal j) (j : Fin 7)
    (hj : |(plan_motion Real.sqrt q_start q_goal dq_max ddq_max_start ddq_max_goal thr
        dq_max_sync_0).delta_q j| > thr) :
    0 < (plan_motion Real.sqrt q_start q_goal dq_max ddq_max_start ddq_max_goal thr
        dq_max_sync_0).dq_max_sync j ∧
    0.75 * (ddq_max_start j + ddq_max_goal j) *
        (plan_motion Real.sqrt q_start q_goal dq_max ddq_max_start ddq_max_goal thr
          dq_max_sync_0).dq_max_sync j ^ 2 +
      -(plan_motion Real.sqrt q_start q_goal dq_max ddq_max_start ddq_max_goal thr
          dq_max_sync_0).max_t_f * ddq_max_start j * ddq_max_goal j *
        (plan_motion Real.sqrt q_start q_goal dq_max ddq_max_start ddq_max_goal thr
          dq_max_sync_0).dq_max_sync j +
      |(plan_motion Real.sqrt q_start q_goal dq_max ddq_max_start ddq_max_goal thr
          dq_max_sync_0).delta_q j| * ddq_max_start j * ddq_max_goal j = 0 := by
  obtain ⟨hv, hs, hg⟩ := hlim j
  obtain ⟨hle, _, _, _⟩ := plan_moving_joint q_start q_goal dq_max ddq_max_start
    ddq_max_goal thr dq_max_sync_0 hthr hlim j hj
  obtain ⟨hpos, hroot, _⟩ := sync_joint_root Real.sqrt _ _ _ _ thr _ (dq_max_sync_0 j) hthr hj
    hv hs hg hle
  refine ⟨hpos, ?_⟩
  have hroot2 : sync_a (ddq_max_start j) (ddq_max_goal j) *
        (plan_motion Real.sqrt q_start q_goal dq_max ddq_max_start ddq_max_goal thr
          dq_max_sync_0).dq_max_sync j ^ 2 +
      sync_b (ddq_max_start j) (ddq_max_goal j)
          (plan_motion Real.sqrt q_start q_goal dq_max ddq_max_start ddq_max_goal thr
            dq_max_sync_0).max_t_f *
        (plan_motion Real.sqrt q_start q_goal dq_max ddq_max_start ddq_max_goal thr
          dq_max_sync_0).dq_max_sync j +
      sync_c ((plan_motion Real.sqrt q_start q_goal dq_max ddq_max_start ddq_max_goal thr
          dq_max_sync_0).delta_q j) (ddq_max_start j) (ddq_max_goal j) = 0 := hroot
  unfold sync_a sync_b sync_c at hroot2
  norm_num at hroot2 ⊢
  linear_combination hroot2

/-- Witness for `synchronized_peak_velocity`: joint 3 of the single-joint run. -/
theorem synchronized_peak_velocity_witness :
    0 < (scenario_plan Real.sqrt).dq_max_sync 3 ∧
    0.75 * (scale (0.5 : ℝ) ddq_max_start_init 3 + scale (0.5 : ℝ) ddq_max_goal_init 3) *
        (scenario_plan Real.sqrt).dq_max_sync 3 ^ 2 +
      -(scenario_plan Real.sqrt).max_t_f * scale (0.5 : ℝ) ddq_max_start_init 3 *
          scale (0.5 : ℝ) ddq_max_goal_init 3 * (scenario_plan Real.sqrt).dq_max_sync 3 +
      |(scenario_plan Real.sqrt).delta_q 3| * scale (0.5 : ℝ) ddq_max_start_init 3 *
        scale (0.5 : ℝ) ddq_max_goal_init 3 = 0 :=
  synchronized_peak_velocity (fun _ => 0) scenario_goal (scale 0.5 dq_max_init)
    (scale 0.5 ddq_max_start_init) (scale 0.5 ddq_max_goal_init) delta_q_motion_finished_main
    (fun _ => 0) threshold_main_pos (scaled_limits_pos 0.5 (by norm_num)) 3 scenario_moving

/-! ## Phases, the finished flag and the control callback -/

section AnyField2

variable {K : Type} [LinearOrderedField K]

/-- The branch number without the redundant lower tests of lines 74 and 80. -/
theorem joint_phase_eq (t d t_1 t_2 t_f thr : K) :
    joint_phase t d t_1 t_2 t_f thr =
      if |d| < thr then 0 else if t < t_1 then 1 else if t < t_2 then 2
        else if t < t_f then 3 else 4 := by
  unfold joint_phase
  by_cases h0 : |d| < thr
  · simp only [h0, if_true]
  · by_cases h1 : t < t_1
    · simp only [h0, h1, if_true, if_false]
    · by_cases h2 : t < t_2
      · simp only [h0, h1, h2, if_true, if_false, ge_iff_le, not_lt.mp h1, and_self]
      · by_cases h3 : t < t_f
        · simp only [h0, h1, h2, h3, if_true, if_false, ge_iff_le, not_lt.mp h2, and_self,
            and_false]
        · simp only [h0, h1, h2, h3, if_false, and_false]

/-- What the loop body writes, by branch number. -/
theorem desired_joint_by_phase (t d v t_1 t_2 t_f q_1 thr : K) :
    desired_joint t d v t_1 t_2 t_f q_1 thr =
      if joint_phase t d t_1 t_2 t_f thr = 0 then ⟨0, true⟩
      else if joint_phase t d t_1 t_2 t_f thr = 1 then ⟨accel_value t v t_1 (sgn d), false⟩
      else if joint_phase t d t_1 t_2 t_f thr = 2 then ⟨const_value t v t_1 q_1 (sgn d), false⟩
      else if joint_phase t d t_1 t_2 t_f thr = 3 then
        ⟨decel_value t d v t_1 (t_2 - t_1) (t_f - t_2) (sgn d), false⟩
      else ⟨d, true⟩ := by
  unfold desired_joint joint_phase
  by_cases h0 : |d| < thr
  · simp [h0]
  · by_cases h1 : t < t_1
    · simp [h0, h1]
    · by_cases h2 : t ≥ t_1 ∧ t < t_2
      · simp [h0, h1, h2]
      · by_cases h3 : t ≥ t_2 ∧ t < t_f
        · simp [h0, h1, h2, h3]
        · simp [h0, h1, h2, h3]

/-- C13. Number the branch `calculation_of_desired_values` takes for a joint as
0 (not moving), 1 (acceleration), 2 (constant velocity), 3 (deceleration),
4 (end of trajectory), for arbitrary `t_1`, `t_2`, `t_f`.  For `t ≤ t'` the
branch at `t'` has a number at least that at `t`, and branch 4 is kept; a joint
with `|delta_q| ≥ threshold` is always in one of the branches 1 to 4, a joint
with `|delta_q| < threshold` is in branch 0 at every time; and the value written
is the one of the numbered branch. -/
theorem one_directional_phases (t t' d v t_1 t_2 t_f q_1 thr : K) (htt : t ≤ t') :
    joint_phase t d t_1 t_2 t_f thr ≤ joint_phase t' d t_1 t_2 t_f thr ∧
    (joint_phase t d t_1 t_2 t_f thr = 4 → joint_phase t' d t_1 t_2 t_f thr = 4) ∧
    (¬ |d| < thr → 1 ≤ joint_phase t d t_1 t_2 t_f thr ∧ joint_phase t d t_1 t_2 t_f thr ≤ 4) ∧
    (|d| < thr → joint_phase t d t_1 t_2 t_f thr = 0 ∧ joint_phase t' d t_1 t_2 t_f thr = 0) ∧
    desired_joint t d v t_1 t_2 t_f q_1 thr =
      (if joint_phase t d t_1 t_2 t_f thr = 0 then ⟨0, true⟩
      else if joint_phase t d t_1 t_2 t_f thr = 1 then ⟨accel_value t v t_1 (sgn d), false⟩
      else if joint_phase t d t_1 t_2 t_f thr = 2 then ⟨const_value t v t_1 q_1 (sgn d), false⟩
      else if joint_phase t d t_1 t_2 t_f thr = 3 then
        ⟨decel_value t d v t_1 (t_2 - t_1) (t_f - t_2) (sgn d), false⟩
      else ⟨d, true⟩) := by
  refine ⟨?_, ?_, ?_, ?_, desired_joint_by_phase t d v t_1 t_2 t_f q_1 thr⟩
  · rw [joint_phase_eq, joint_phase_eq]
    split_ifs <;> first | (exfalso; linarith) | norm_num
  · rw [joint_phase_eq, joint_phase_eq]
    split_ifs <;> first | (exfalso; linarith) | norm_num
  · intro h
    rw [joint_phase_eq, if_neg h]
    split_ifs <;> norm_num
  · intro h
    constructor <;> rw [joint_phase_eq, if_pos h]

/-- C14. For every plan, `delta_q`, threshold and time `t`,
`motion_finished_flag` is true if and only if each of the 7 joints is finished,
and joint `j` is finished exactly when `|delta_q[j]| < threshold` or none of
`t < t_1[j]`, `t < t_2[j]`, `t < t_f[j]` holds. -/
theorem overall_finished_flag (t : K) (delta_q dq_max t_1 t_2 t_f q_1 : Fin 7 → K) (thr : K) :
    ((calculation_of_desired_values t delta_q dq_max t_1 t_2 t_f q_1 thr).2 = true ↔
      ∀ j, joint_motion_finished t delta_q dq_max t_1 t_2 t_f q_1 thr j = true) ∧
    ∀ j, (joint_motion_finished t delta_q dq_max t_1 t_2 t_f q_1 thr j = true ↔
      (|delta_q j| < thr ∨ (¬ t < t_1 j ∧ ¬ t < t_2 j ∧ ¬ t < t_f j))) :=
  ⟨flag_eq_true_iff t delta_q dq_max t_1 t_2 t_f q_1 thr,
    fun j => desired_joint_finished_iff t (delta_q j) (dq_max j) (t_1 j) (t_2 j) (t_f j)
      (q_1 j) thr⟩

/-- C15. One call of the control callback with tick duration `time_step`: the
captured `time` becomes `time + time_step`, `delta_q_d` and
`motion_finished_flag` are the sampler's outputs at the new time, the call
returns `franka::Stop` if and only if the flag is true at the new time, and
otherwise it returns the joint positions whose `j`-th entry is
`q_start[j] + delta_q_d[j]`. -/
theorem per_tick_step (q_start : Fin 7 → K) (p : MotionPlan K) (thr : K)
    (st : CallbackState K) (time_step : K) :
    (control_callback q_start p thr st time_step).1.time = st.time + time_step ∧
    (control_callback q_start p thr st time_step).1.delta_q_d =
      (sample p thr (st.time + time_step)).1 ∧
    (control_callback q_start p thr st time_step).1.motion_finished_flag =
      (sample p thr (st.time + time_step)).2 ∧
    ((control_callback q_start p thr st time_step).2 = CallbackResult.Stop ↔
      (sample p thr (st.time + time_step)).2 = true) ∧
    ((sample p thr (st.time + time_step)).2 ≠ true →
      ∃ q, (control_callback q_start p thr st time_step).2 = CallbackResult.JointPositions q ∧
        ∀ j, q j = q_start j + (sample p thr (st.time + time_step)).1 j) := by
  by_cases h : (calculation_of_desired_values (st.time + time_step) p.delta_q p.dq_max_sync
      p.t_1_sync p.t_2_sync p.t_f_sync p.q_1 thr).2 = true
  · have hcb : control_callback q_start p thr st time_step =
        (⟨st.time + time_step, (sample p thr (st.time + time_step)).1,
          (sample p thr (st.time + time_step)).2⟩, CallbackResult.Stop) := by
      unfold control_callback
      exact if_pos h
    rw [hcb]
    exact ⟨rfl, rfl, rfl, ⟨fun _ => h, fun _ => rfl⟩, fun hc => absurd h hc⟩
  · have hcb : control_callback q_start p thr st time_step =
        (⟨st.time + time_step, (sample p thr (st.time + time_step)).1,
          (sample p thr (st.time + time_step)).2⟩,
          CallbackResult.JointPositions
            ![q_start 0 + (sample p thr (st.time + time_step)).1 0,
              q_start 1 + (sample p thr (st.time + time_step)).1 1,
              q_start 2 + (sample p thr (st.time + time_step)).1 2,
              q_start 3 + (sample p thr (st.time + time_step)).1 3,
              q_start 4 + (sample p thr (st.time + time_step)).1 4,
              q_start 5 + (sample p thr (st.time + time_step)).1 5,
              q_start 6 + (sample p thr (st.time + time_step)).1 6]) := by
      unfold control_callback
      exact if_neg h
    rw [hcb]
    refine ⟨rfl, rfl, rfl, ⟨fun hc => (by cases hc), fun hc => absurd hc h⟩,
      fun _ => ⟨_, rfl, ?_⟩⟩
    intro j
    fin_cases j <;> rfl

end AnyField2

/-- Witness for `one_directional_phases`: breakpoints `1, 2, 3`, a joint with
`delta_q = 1` above the threshold `1/2`, times `t = 0` and `t = 5`. -/
theorem one_directional_phases_witness :
    joint_phase (0 : ℚ) 1 1 2 3 (1 / 2) ≤ joint_phase (5 : ℚ) 1 1 2 3 (1 / 2) ∧
    (joint_phase (0 : ℚ) 1 1 2 3 (1 / 2) = 4 → joint_phase (5 : ℚ) 1 1 2 3 (1 / 2) = 4) ∧
    (¬ |(1 : ℚ)| < 1 / 2 →
      1 ≤ joint_phase (0 : ℚ) 1 1 2 3 (1 / 2) ∧ joint_phase (0 : ℚ) 1 1 2 3 (1 / 2) ≤ 4) ∧
    (|(1 : ℚ)| < 1 / 2 →
      joint_phase (0 : ℚ) 1 1 2 3 (1 / 2) = 0 ∧ joint_phase (5 : ℚ) 1 1 2 3 (1 / 2) = 0) ∧
    desired_joint (0 : ℚ) 1 1 1 2 3 (1 / 2) (1 / 2) =
      (if joint_phase (0 : ℚ) 1 1 2 3 (1 / 2) = 0 then ⟨0, true⟩
      else if joint_phase (0 : ℚ) 1 1 2 3 (1 / 2) = 1 then ⟨accel_value 0 1 1 (sgn (1 : ℚ)), false⟩
      else if joint_phase (0 : ℚ) 1 1 2 3 (1 / 2) = 2 then
        ⟨const_value 0 1 1 (1 / 2) (sgn (1 : ℚ)), false⟩
      else if joint_phase (0 : ℚ) 1 1 2 3 (1 / 2) = 3 then
        ⟨decel_value 0 1 1 1 (2 - 1) (3 - 2) (sgn (1 : ℚ)), false⟩
      else ⟨1, true⟩) :=
  one_directional_phases 0 5 1 1 1 2 3 (1 / 2) (1 / 2) (by norm_num)

/-! ## Velocity limit, breakpoint ordering, overshoot, moving joints, speed factor -/

/-- C16. For a planner-computed plan with positive threshold and strictly
positive limits and a joint `j` with `|delta_q[j]| > threshold`:
`dq_max_sync[j] ≤ dq_max[j]`. -/
theorem velocity_limit_respected
    (q_start q_goal dq_max ddq_max_start ddq_max_goal : Fin 7 → ℝ)
    (thr : ℝ) (dq_max_sync_0 : Fin 7 → ℝ) (hthr : 0 < thr)
    (hlim : ∀ j, 0 < dq_max j ∧ 0 < ddq_max_start j ∧ 0 < ddq_max_goal j) (j : Fin 7)
    (hj : |(plan_motion Real.sqrt q_start q_goal dq_max ddq_max_start ddq_max_goal thr
        dq_max_sync_0).delta_q j| > thr) :
    (plan_motion Real.sqrt q_start q_goal dq_max ddq_max_start ddq_max_goal thr
        dq_max_sync_0).dq_max_sync j ≤ dq_max j := by
  obtain ⟨hv, hs, hg⟩ := hlim j
  obtain ⟨hle, _, _, _⟩ := plan_moving_joint q_start q_goal dq_max ddq_max_start
    ddq_max_goal thr dq_max_sync_0 hthr hlim j hj
  exact (sync_joint_root Real.sqrt _ _ _ _ thr _ (dq_max_sync_0 j) hthr hj hv hs hg hle).2.2

/-- Witness for `velocity_limit_respected`: joint 3 of the single-joint run. -/
theorem velocity_limit_respected_witness :
    (scenario_plan Real.sqrt).dq_max_sync 3 ≤ scale (0.5 : ℝ) dq_max_init 3 :=
  velocity_limit_respected (fun _ => 0) scenario_goal (scale 0.5 dq_max_init)
    (scale 0.5 ddq_max_start_init) (scale 0.5 ddq_max_goal_init) delta_q_motion_finished_main
    (fun _ => 0) threshold_main_pos (scaled_limits_pos 0.5 (by norm_num)) 3 scenario_moving

/-- C17. For a planner-computed plan with positive threshold and strictly
positive limits and a joint `j` with `|delta_q[j]| > threshold`:
`0 < t_1_sync[j] ≤ t_2_sync[j] < t_f_sync[j]`. -/
theorem breakpoint_ordering
    (q_start q_goal dq_max ddq_max_start ddq_max_goal : Fin 7 → ℝ)
    (thr : ℝ) (dq_max_sync_0 : Fin 7 → ℝ) (hthr : 0 < thr)
    (hlim : ∀ j, 0 < dq_max j ∧ 0 < ddq_max_start j ∧ 0 < ddq_max_goal j) (j : Fin 7)
    (hj : |(plan_motion Real.sqrt q_start q_goal dq_max ddq_max_start ddq_max_goal thr
        dq_max_sync_0).delta_q j| > thr) :
    0 < (plan_motion Real.sqrt q_start q_goal dq_max ddq_max_start ddq_max_goal thr
        dq_max_sync_0).t_1_sync j ∧
    (plan_motion Real.sqrt q_start q_goal dq_max ddq_max_start ddq_max_goal thr
        dq_max_sync_0).t_1_sync j ≤
      (plan_motion Real.sqrt q_start q_goal dq_max ddq_max_start ddq_max_goal thr
        dq_max_sync_0).t_2_sync j ∧
    (plan_motion Real.sqrt q_start q_goal dq_max ddq_max_start ddq_max_goal thr
        dq_max_sync_0).t_2_sync j <
      (plan_motion Real.sqrt q_start q_goal dq_max ddq_max_start ddq_max_goal thr
        dq_max_sync_0).t_f_sync j := by
  obtain ⟨_, _, _, hp⟩ := plan_moving_joint q_start q_goal dq_max ddq_max_start
    ddq_max_goal thr dq_max_sync_0 hthr hlim j hj
  exact ⟨hp.t_1_pos, hp.t_1_le, hp.t_2_lt⟩

/-- Witness for `breakpoint_ordering`: joint 3 of the single-joint run. -/
theorem breakpoint_ordering_witness :
    0 < (scenario_plan Real.sqrt).t_1_sync 3 ∧
    (scenario_plan Real.sqrt).t_1_sync 3 ≤ (scenario_plan Real.sqrt).t_2_sync 3 ∧
    (scenario_plan Real.sqrt).t_2_sync 3 < (scenario_plan Real.sqrt).t_f_sync 3 :=
  breakpoint_ordering (fun _ => 0) scenario_goal (scale 0.5 dq_max_init)
    (scale 0.5 ddq_max_start_init) (scale 0.5 ddq_max_goal_init) delta_q_motion_finished_main
    (fun _ => 0) threshold_main_pos (scaled_limits_pos 0.5 (by norm_num)) 3 scenario_moving

/-- C18. For a planner-computed plan with positive threshold and strictly
positive limits, every joint `j` and every `t ≥ 0`:
`0 ≤ sgn(delta_q[j]) * delta_q_d[j](t) ≤ |delta_q[j]|`. -/
theorem no_overshoot
    (q_start q_goal dq_max ddq_max_start ddq_max_goal : Fin 7 → ℝ)
    (thr : ℝ) (dq_max_sync_0 : Fin 7 → ℝ) (hthr : 0 < thr)
    (hlim : ∀ j, 0 < dq_max j ∧ 0 < ddq_max_start j ∧ 0 < ddq_max_goal j)
    (j : Fin 7) (t : ℝ) (ht : 0 ≤ t) :
    0 ≤ ((sgn ((plan_motion Real.sqrt q_start q_goal dq_max ddq_max_start ddq_max_goal thr
        dq_max_sync_0).delta_q j) : Int) : ℝ) *
      (sample (plan_motion Real.sqrt q_start q_goal dq_max ddq_max_start ddq_max_goal thr
        dq_max_sync_0) thr t).1 j ∧
    ((sgn ((plan_motion Real.sqrt q_start q_goal dq_max ddq_max_start ddq_max_goal thr
        dq_max_sync_0).delta_q j) : Int) : ℝ) *
      (sample (plan_motion Real.sqrt q_start q_goal dq_max ddq_max_start ddq_max_goal thr
        dq_max_sync_0) thr t).1 j ≤
    |(plan_motion Real.sqrt q_start q_goal dq_max ddq_max_start ddq_max_goal thr
        dq_max_sync_0).delta_q j| := by
  show 0 ≤ _ * (desired_joint _ _ _ _ _ _ _ _).delta_q_d ∧
    _ * (desired_joint _ _ _ _ _ _ _ _).delta_q_d ≤ _
  by_cases hstill : |(plan_motion Real.sqrt q_start q_goal dq_max ddq_max_start ddq_max_goal
      thr dq_max_sync_0).delta_q j| < thr
  · rw [value_still _ _ _ _ _ _ _ t hstill]
    simp only [mul_zero]
    exact ⟨le_refl 0, abs_nonneg _⟩
  · by_cases hmov : thr < |(plan_motion Real.sqrt q_start q_goal dq_max ddq_max_start
        ddq_max_goal thr dq_max_sync_0).delta_q j|
    · obtain ⟨_, _, _, hp⟩ := plan_moving_joint q_start q_goal dq_max ddq_max_start
        ddq_max_goal thr dq_max_sync_0 hthr hlim j hmov
      have hlo := signed_mono hp 0 t (le_refl 0) ht
      rw [signed_accel _ _ _ _ _ _ _ 0 hp.d_ne hp.moving hp.t_1_pos, accel_scaled_zero] at hlo
      have hhi := signed_mono hp t (max t
        ((plan_motion Real.sqrt q_start q_goal dq_max ddq_max_start ddq_max_goal thr
          dq_max_sync_0).t_f_sync j)) ht (le_max_left _ _)
      rw [(signed_phase_bounds hp _ (le_trans ht (le_max_left _ _))).2.2.2
        (le_max_right _ _)] at hhi
      exact ⟨hlo, hhi⟩
    · obtain ⟨e1, e2, e3, _⟩ := plan_still_joint q_start q_goal dq_max ddq_max_start
        ddq_max_goal thr dq_max_sync_0 j hmov
      rw [e1, e2, e3, value_end _ _ _ _ _ _ _ t hstill le_rfl le_rfl ht]
      show 0 ≤ _ * (plan_motion Real.sqrt q_start q_goal dq_max ddq_max_start ddq_max_goal thr
        dq_max_sync_0).delta_q j ∧ _
      rw [sgn_cast_mul_self]
      exact ⟨abs_nonneg _, le_refl _⟩

/-- Witness for `no_overshoot`: joint 3 of the single-joint run at `t = 0.5`. -/
theorem no_overshoot_witness :
    (0 : ℝ) ≤ 0.5 ∧
    0 ≤ ((sgn ((scenario_plan Real.sqrt).delta_q 3) : Int) : ℝ) *
      (sample (scenario_plan Real.sqrt) delta_q_motion_finished_main 0.5).1 3 ∧
    ((sgn ((scenario_plan Real.sqrt).delta_q 3) : Int) : ℝ) *
      (sample (scenario_plan Real.sqrt) delta_q_motion_finished_main 0.5).1 3 ≤
    |(scenario_plan Real.sqrt).delta_q 3| :=
  ⟨by norm_num,
    no_overshoot (fun _ => 0) scenario_goal (scale 0.5 dq_max_init)
      (scale 0.5 ddq_max_start_init) (scale 0.5 ddq_max_goal_init)
      delta_q_motion_finished_main (fun _ => 0) threshold_main_pos
      (scaled_limits_pos 0.5 (by norm_num)) 3 0.5 (by norm_num)⟩

/-- C19 (the code at the failing input). With the program's limits and threshold
`0.000001`, the all-zero start and a goal whose joint 0 is `0.000001`, joint 0 has
`|delta_q| = threshold`: the sampler's test `|delta_q| < threshold` (line 63) is
false, so it evaluates the joint as moving, while the planner's test
`|delta_q| > threshold` (lines 164 and 182) is false too, so both planning loops
skip it: `t_f_sync[0] = 0`, `dq_max_sync[0]` keeps its uninitialized content, and
at `t = 0` the sampler takes the end-of-trajectory branch and writes the whole
`delta_q[0]`. -/
theorem moving_test_mismatch (dq_max_sync_0 : Fin 7 → ℝ) :
    ¬ |(plan_motion Real.sqrt (fun _ => 0) ![0.000001, 0, 0, 0, 0, 0, 0] dq_max_init
        ddq_max_start_init ddq_max_goal_init delta_q_motion_finished_main
        dq_max_sync_0).delta_q 0| < delta_q_motion_finished_main ∧
    ¬ |(plan_motion Real.sqrt (fun _ => 0) ![0.000001, 0, 0, 0, 0, 0, 0] dq_max_init
        ddq_max_start_init ddq_max_goal_init delta_q_motion_finished_main
        dq_max_sync_0).delta_q 0| > delta_q_motion_finished_main ∧
    (plan_motion Real.sqrt (fun _ => 0) ![0.000001, 0, 0, 0, 0, 0, 0] dq_max_init
        ddq_max_start_init ddq_max_goal_init delta_q_motion_finished_main
        dq_max_sync_0).t_f_sync 0 = 0 ∧
    (plan_motion Real.sqrt (fun _ => 0) ![0.000001, 0, 0, 0, 0, 0, 0] dq_max_init
        ddq_max_start_init ddq_max_goal_init delta_q_motion_finished_main
        dq_max_sync_0).dq_max_sync 0 = dq_max_sync_0 0 ∧
    joint_phase 0
      ((plan_motion Real.sqrt (fun _ => 0) ![0.000001, 0, 0, 0, 0, 0, 0] dq_max_init
        ddq_max_start_init ddq_max_goal_init delta_q_motion_finished_main
        dq_max_sync_0).delta_q 0)
      ((plan_motion Real.sqrt (fun _ => 0) ![0.000001, 0, 0, 0, 0, 0, 0] dq_max_init
        ddq_max_start_init ddq_max_goal_init delta_q_motion_finished_main
        dq_max_sync_0).t_1_sync 0)
      ((plan_motion Real.sqrt (fun _ => 0) ![0.000001, 0, 0, 0, 0, 0, 0] dq_max_init
        ddq_max_start_init ddq_max_goal_init delta_q_motion_finished_main
        dq_max_sync_0).t_2_sync 0)
      ((plan_motion Real.sqrt (fun _ => 0) ![0.000001, 0, 0, 0, 0, 0, 0] dq_max_init
        ddq_max_start_init ddq_max_goal_init delta_q_motion_finished_main
        dq_max_sync_0).t_f_sync 0) delta_q_motion_finished_main = 4 ∧
    (sample (plan_motion Real.sqrt (fun _ => 0) ![0.000001, 0, 0, 0, 0, 0, 0] dq_max_init
        ddq_max_start_init ddq_max_goal_init delta_q_motion_finished_main
        dq_max_sync_0) delta_q_motion_finished_main 0).1 0 = 0.000001 := by
  have hd : (plan_motion Real.sqrt (fun _ => 0) ![0.000001, 0, 0, 0, 0, 0, 0] dq_max_init
      ddq_max_start_init ddq_max_goal_init delta_q_motion_finished_main
      dq_max_sync_0).delta_q 0 = 0.000001 := by
    simp [plan_motion, sub]
  have habs : |(0.000001 : ℝ)| = delta_q_motion_finished_main := by
    rw [abs_of_pos (by norm_num)]
    rfl
  have h1 : ¬ |(plan_motion Real.sqrt (fun _ => 0) ![0.000001, 0, 0, 0, 0, 0, 0] dq_max_init
      ddq_max_start_init ddq_max_goal_init delta_q_motion_finished_main
      dq_max_sync_0).delta_q 0| < delta_q_motion_finished_main := by
    rw [hd, habs]
    exact lt_irrefl _
  have h2 : ¬ delta_q_motion_finished_main <
      |(plan_motion Real.sqrt (fun _ => 0) ![0.000001, 0, 0, 0, 0, 0, 0] dq_max_init
      ddq_max_start_init ddq_max_goal_init delta_q_motion_finished_main
      dq_max_sync_0).delta_q 0| := by
    rw [hd, habs]
    exact lt_irrefl _
  obtain ⟨e1, e2, e3, _⟩ := plan_still_joint (fun _ => 0) ![0.000001, 0, 0, 0, 0, 0, 0]
    dq_max_init ddq_max_start_init ddq_max_goal_init delta_q_motion_finished_main
    dq_max_sync_0 0 h2
  refine ⟨h1, h2, e3, ?_, ?_, ?_⟩
  · simp only [plan_motion] at h2 ⊢
    simp only [sync_joint, gt_iff_lt, h2, if_false]
  · rw [e1, e2, e3]
    unfold joint_phase
    simp only [h1, if_false, lt_irrefl, false_and, and_false]
  · show (desired_joint _ _ _ _ _ _ _ _).delta_q_d = 0.000001
    rw [e1, e2, e3, value_end _ _ _ _ _ _ _ 0 h1 le_rfl le_rfl le_rfl]
    exact hd

/-- Scaling all three limits of a joint by a larger positive speed factor does
not lengthen its unsynchronized duration. -/
theorem unsync_t_f_antitone (sqrt : ℝ → ℝ) (d v a_s a_g thr s1 s2 : ℝ) (hv : 0 < v)
    (hs : 0 < a_s) (hg : 0 < a_g) (h1 : 0 < s1) (h12 : s1 ≤ s2) :
    (unsync_joint sqrt d (s2 * v) (s2 * a_s) (s2 * a_g) thr).t_f ≤
      (unsync_joint sqrt d (s1 * v) (s1 * a_s) (s1 * a_g) thr).t_f := by
  have h2 : 0 < s2 := lt_of_lt_of_le h1 h12
  by_cases hd : thr < |d|
  · rw [unsync_joint_moving sqrt d _ _ _ thr hd, unsync_joint_moving sqrt d _ _ _ thr hd]
    show 1.5 * (s2 * v) / (s2 * a_s) / 2 + 1.5 * (s2 * v) / (s2 * a_g) / 2 + |d| / (s2 * v) ≤
      1.5 * (s1 * v) / (s1 * a_s) / 2 + 1.5 * (s1 * v) / (s1 * a_g) / 2 + |d| / (s1 * v)
    have e1 : ∀ s : ℝ, 0 < s → 1.5 * (s * v) / (s * a_s) / 2 + 1.5 * (s * v) / (s * a_g) / 2 =
        1.5 * v / a_s / 2 + 1.5 * v / a_g / 2 := by
      intro s hs0
      field_simp
      ring
    have e2 : |d| / (s2 * v) ≤ |d| / (s1 * v) :=
      div_le_div_of_nonneg_left (abs_nonneg d) (mul_pos h1 hv)
        (mul_le_mul_of_nonneg_right h12 (le_of_lt hv))
    rw [e1 s1 h1, e1 s2 h2]
    linarith
  · rw [unsync_joint_still sqrt d _ _ _ thr hd, unsync_joint_still sqrt d _ _ _ thr hd]

/-- C20. For fixed `q_start`, `q_goal`, fixed positive base limits and threshold,
and speed factors `0 < s1 ≤ s2`, the duration `max_t_f` computed with `s1` is at
least the one computed with `s2`. -/
theorem speed_factor_slows
    (q_start q_goal dq_max ddq_max_start ddq_max_goal : Fin 7 → ℝ) (thr : ℝ)
    (dq_max_sync_0 dq_max_sync_1 : Fin 7 → ℝ)
    (hlim : ∀ j, 0 < dq_max j ∧ 0 < ddq_max_start j ∧ 0 < ddq_max_goal j)
    (s1 s2 : ℝ) (h1 : 0 < s1) (h12 : s1 ≤ s2) :
    (plan_motion Real.sqrt q_start q_goal (scale s2 dq_max) (scale s2 ddq_max_start)
        (scale s2 ddq_max_goal) thr dq_max_sync_1).max_t_f ≤
      (plan_motion Real.sqrt q_start q_goal (scale s1 dq_max) (scale s1 ddq_max_start)
        (scale s1 ddq_max_goal) thr dq_max_sync_0).max_t_f := by
  show max_vector (unsync_t_f Real.sqrt q_start q_goal (scale s2 dq_max)
      (scale s2 ddq_max_start) (scale s2 ddq_max_goal) thr) ≤
    max_vector (unsync_t_f Real.sqrt q_start q_goal (scale s1 dq_max)
      (scale s1 ddq_max_start) (scale s1 ddq_max_goal) thr)
  refine max_vector_mono _ _ (fun j => ?_)
  show (unsync_joint Real.sqrt (sub q_goal q_start j) (s2 * dq_max j) (s2 * ddq_max_start j)
      (s2 * ddq_max_goal j) thr).t_f ≤
    (unsync_joint Real.sqrt (sub q_goal q_start j) (s1 * dq_max j) (s1 * ddq_max_start j)
      (s1 * ddq_max_goal j) thr).t_f
  exact unsync_t_f_antitone Real.sqrt (sub q_goal q_start j) (dq_max j) (ddq_max_start j)
    (ddq_max_goal j) thr s1 s2 (hlim j).1 (hlim j).2.1 (hlim j).2.2 h1 h12

/-- Witness for `speed_factor_slows`: the single-joint run (speed factor `0.5`)
against the same run at speed factor `1`. -/
theorem speed_factor_slows_witness :
    (0 : ℝ) < 0.5 ∧ (0.5 : ℝ) ≤ 1 ∧
    (plan_motion Real.sqrt (fun _ => 0) scenario_goal (scale (1 : ℝ) dq_max_init)
        (scale 1 ddq_max_start_init) (scale 1 ddq_max_goal_init)
        delta_q_motion_finished_main (fun _ => 0)).max_t_f ≤
      (scenario_plan Real.sqrt).max_t_f :=
  ⟨by norm_num, by norm_num,
    speed_factor_slows (fun _ => 0) scenario_goal dq_max_init ddq_max_start_init
      ddq_max_goal_init delta_q_motion_finished_main (fun _ => 0) (fun _ => 0)
      limits_init_pos 0.5 1 (by norm_num) (by norm_num)⟩

end JointMotion
